import Mathlib

/-
Verification development for the Temple Runner endless-runner game.
The gameplay core (temple_runner.py, game_logic.py) is shallowly embedded:
Python floats become exact rationals, Python ints become Lean integers,
and the process-wide random source becomes an explicit environment of draws
consumed by the tick function.  Python truncating int() is pyInt, Python
floor division is Int.fdiv, and pygame rect intersection is colliderect.
-/

namespace TempleRunner

/-- Python int(q): truncation toward zero. -/
def pyInt (q : ℚ) : ℤ := if q < 0 then ⌈q⌉ else ⌊q⌋

/-- Vector3 from temple_runner.py: 3-component vector with add and scalar mul. -/
structure Vector3 where
  x : ℚ
  y : ℚ
  z : ℚ
deriving DecidableEq, Repr

/-- Vector3.__add__. -/
def Vector3.add (a b : Vector3) : Vector3 := ⟨a.x + b.x, a.y + b.y, a.z + b.z⟩

/-- Vector3.__mul__ (scalar). -/
def Vector3.mul (a : Vector3) (s : ℚ) : Vector3 := ⟨a.x * s, a.y * s, a.z * s⟩

/-- GameState enum. -/
inductive GameState where
  | MENU
  | PLAYING
  | GAME_OVER
  | PAUSED
deriving DecidableEq, Repr

/-- PlayerState enum. -/
inductive PlayerState where
  | RUNNING
  | JUMPING
  | SLIDING
  | TURNING_LEFT
  | TURNING_RIGHT
deriving DecidableEq, Repr

/-- RGB color triple. -/
def Color := ℤ × ℤ × ℤ
deriving instance DecidableEq, Repr for Color

def GOLD : Color := (255, 215, 0)

def RED : Color := (255, 0, 0)

def BLUE : Color := (0, 100, 255)

/-- Screen-space rectangle (pygame.Rect with integer fields). -/
structure Rect where
  x : ℤ
  y : ℤ
  w : ℤ
  h : ℤ
deriving DecidableEq, Repr

/-- pygame.Rect.colliderect: strict overlap on both axes. -/
def colliderect (a b : Rect) : Bool :=
  decide (a.x < b.x + b.w) && decide (a.y < b.y + b.h) &&
  decide (b.x < a.x + a.w) && decide (b.y < a.y + a.h)

/-- Camera state from temple_runner.py. -/
structure Camera where
  position : Vector3
  target : Vector3
  shake_intensity : ℚ
  shake_duration : ℤ
deriving DecidableEq, Repr

/-- Camera.__init__. -/
def Camera.init : Camera :=
  { position := ⟨0, -50, -200⟩, target := ⟨0, 0, 0⟩
    shake_intensity := 0, shake_duration := 0 }

/-- Camera.add_shake. -/
def Camera.add_shake (c : Camera) (intensity : ℚ) (duration : ℤ) : Camera :=
  { c with shake_intensity := intensity, shake_duration := duration }

/-- Camera.project_3d_to_2d: pinhole projection; raises rel_z to 0.1
when rel_z is non-positive; FOV 500; screen center (600, 400). -/
def Camera.project_3d_to_2d (c : Camera) (point3d : Vector3) : ℤ × ℤ :=
  let rel_x := point3d.x - c.position.x
  let rel_y := point3d.y - c.position.y
  let rel_z0 := point3d.z - c.position.z
  let rel_z : ℚ := if rel_z0 ≤ 0 then 1/10 else rel_z0
  (pyInt (rel_x * 500 / rel_z + 600), pyInt (rel_y * 500 / rel_z + 400))

/-- Player state from temple_runner.py. -/
structure Player where
  position : Vector3
  velocity : Vector3
  state : PlayerState
  lane : ℤ
  jump_velocity : ℚ
  slide_timer : ℤ
  turn_timer : ℤ
  invulnerable_timer : ℤ
  size : ℤ
  animation_frame : ℤ
  animation_timer : ℤ
deriving DecidableEq, Repr

/-- Player.__init__. -/
def Player.init : Player :=
  { position := ⟨0, 0, 0⟩, velocity := ⟨0, 0, 8⟩, state := PlayerState.RUNNING
    lane := 0, jump_velocity := 0, slide_timer := 0, turn_timer := 0
    invulnerable_timer := 0, size := 20, animation_frame := 0, animation_timer := 0 }

/-- Player.update stage 1: position += velocity. -/
def Player.stepPosition (p : Player) : Player :=
  { p with position := p.position.add p.velocity }

/-- Player.update stage 2: jump kinematics (gravity 1.2/tick, landing
clamps y to 0, zeroes jump_velocity and returns to RUNNING). -/
def Player.stepJump (p : Player) : Player :=
  if p.state = PlayerState.JUMPING then
    let y := p.position.y + p.jump_velocity
    if y ≤ 0 then
      { p with position := { p.position with y := 0 },
               jump_velocity := 0, state := PlayerState.RUNNING }
    else
      { p with position := { p.position with y := y },
               jump_velocity := p.jump_velocity - 6/5 }
  else p

/-- Player.update stage 3: slide timer decay. -/
def Player.stepSlide (p : Player) : Player :=
  if p.state = PlayerState.SLIDING then
    let st := p.slide_timer - 1
    { p with slide_timer := st,
             state := if st ≤ 0 then PlayerState.RUNNING else p.state }
  else p

/-- Player.update stage 4: turn timer decay. -/
def Player.stepTurn (p : Player) : Player :=
  if p.state = PlayerState.TURNING_LEFT ∨ p.state = PlayerState.TURNING_RIGHT then
    let tt := p.turn_timer - 1
    { p with turn_timer := tt,
             state := if tt ≤ 0 then PlayerState.RUNNING else p.state }
  else p

/-- Player.update stage 5: lane convergence of x. -/
def Player.stepLaneX (p : Player) : Player :=
  { p with position :=
    { p.position with x := p.position.x + ((p.lane : ℚ) * 60 - p.position.x) * (1/5) } }

/-- Player.update stage 6: invulnerability decrement. -/
def Player.stepInvuln (p : Player) : Player :=
  if p.invulnerable_timer > 0 then
    { p with invulnerable_timer := p.invulnerable_timer - 1 }
  else p

/-- Player.update stage 7: animation cycling every 10 ticks through 4 frames. -/
def Player.stepAnim (p : Player) : Player :=
  let at1 : ℤ := p.animation_timer + 1
  if at1 ≥ 10 then
    { p with animation_timer := 0, animation_frame := (p.animation_frame + 1) % 4 }
  else
    { p with animation_timer := at1 }

/-- Player.update: the seven blocks of the source method run in sequence. -/
def Player.update (p : Player) : Player :=
  p.stepPosition.stepJump.stepSlide.stepTurn.stepLaneX.stepInvuln.stepAnim

/-- Player.jump: only from RUNNING; launches with upward velocity 18. -/
def Player.jump (p : Player) : Player :=
  if p.state = PlayerState.RUNNING then
    { p with state := PlayerState.JUMPING, jump_velocity := 18 }
  else p

/-- Player.slide: only from RUNNING; slide_timer 30. -/
def Player.slide (p : Player) : Player :=
  if p.state = PlayerState.RUNNING then
    { p with state := PlayerState.SLIDING, slide_timer := 30 }
  else p

/-- Player.move_left: guarded only on the lane bound. -/
def Player.move_left (p : Player) : Player :=
  if p.lane > -1 then
    { p with lane := p.lane - 1, state := PlayerState.TURNING_LEFT, turn_timer := 10 }
  else p

/-- Player.move_right: guarded only on the lane bound. -/
def Player.move_right (p : Player) : Player :=
  if p.lane < 1 then
    { p with lane := p.lane + 1, state := PlayerState.TURNING_RIGHT, turn_timer := 10 }
  else p

/-- Player.get_collision_rect: half-height box while SLIDING, else size x size*2. -/
def Player.get_collision_rect (p : Player) (cam : Camera) : Rect :=
  let sp := cam.project_3d_to_2d p.position
  if p.state = PlayerState.SLIDING then
    ⟨sp.1 - Int.fdiv p.size 2, sp.2 - Int.fdiv p.size 4, p.size, Int.fdiv p.size 2⟩
  else
    ⟨sp.1 - Int.fdiv p.size 2, sp.2 - p.size, p.size, p.size * 2⟩

/-- Obstacle types. -/
inductive ObstacleType where
  | barrier
  | gap
  | boulder
  | moving_barrier
  | spike_trap
deriving DecidableEq, Repr

/-- Obstacle entity. -/
structure Obstacle where
  position : Vector3
  type : ObstacleType
  lane : ℤ
  size : ℤ
  active : Bool
deriving DecidableEq, Repr

/-- Obstacle.__init__. -/
def Obstacle.mk' (position : Vector3) (ty : ObstacleType) (lane : ℤ) : Obstacle :=
  { position := position, type := ty, lane := lane, size := 30, active := true }

/-- Obstacle.update: deactivate once 300 units behind the player. -/
def Obstacle.update (player_z : ℚ) (o : Obstacle) : Obstacle :=
  if o.position.z < player_z - 300 then { o with active := false } else o

/-- Obstacle.get_collision_rect. -/
def Obstacle.get_collision_rect (o : Obstacle) (cam : Camera) : Rect :=
  let sp := cam.project_3d_to_2d o.position
  ⟨sp.1 - Int.fdiv o.size 2, sp.2 - Int.fdiv o.size 2, o.size, o.size⟩

/-- Collectible types. -/
inductive CollectibleType where
  | coin
  | gem
  | powerup
deriving DecidableEq, Repr

/-- Collectible entity. -/
structure Collectible where
  position : Vector3
  type : CollectibleType
  size : ℤ
  active : Bool
  rotation : ℚ
deriving DecidableEq, Repr

/-- Collectible.__init__. -/
def Collectible.mk' (position : Vector3) (ty : CollectibleType) : Collectible :=
  { position := position, type := ty, size := 15, active := true, rotation := 0 }

/-- Collectible.update: spin; deactivate once 100 units behind the player. -/
def Collectible.update (player_z : ℚ) (c : Collectible) : Collectible :=
  let c1 : Collectible := { c with rotation := c.rotation + 5 }
  if c1.position.z < player_z - 100 then { c1 with active := false } else c1

/-- Collectible.get_collision_rect. -/
def Collectible.get_collision_rect (c : Collectible) (cam : Camera) : Rect :=
  let sp := cam.project_3d_to_2d c.position
  ⟨sp.1 - Int.fdiv c.size 2, sp.2 - Int.fdiv c.size 2, c.size, c.size⟩

/-- A particle of ParticleSystem. -/
structure Particle where
  pos : Vector3
  vel : Vector3
  color : Color
  life : ℤ
  max_life : ℤ
deriving DecidableEq, Repr

/-- The particle record built by ParticleSystem.add_particle (the source
copies the position into a fresh Vector3). -/
def mkParticle (position velocity : Vector3) (color : Color) (life : ℤ) : Particle :=
  { pos := ⟨position.x, position.y, position.z⟩, vel := velocity,
    color := color, life := life, max_life := life }

/-- ParticleSystem.add_particle. -/
def add_particle (ps : List Particle) (position velocity : Vector3)
    (color : Color) (life : ℤ) : List Particle :=
  ps ++ [mkParticle position velocity color life]

/-- The per-particle mutation of ParticleSystem.update:
pos += vel and life -= 1. -/
def Particle.step (p : Particle) : Particle :=
  { p with pos := p.pos.add p.vel, life := p.life - 1 }

/-- ParticleSystem.update: the source loop mutates every particle
(pos += vel, life -= 1) and removes those whose life reached <= 0,
which is exactly this map followed by a filter. -/
def particlesUpdate (ps : List Particle) : List Particle :=
  (ps.map Particle.step).filter (fun p => !(p.life ≤ 0 : Bool))

/-- One tick's draws from the process-wide random source.  Each field stands
for one call site of the random module; list indices select from the pools
the source builds (random.choice is modelled as indexing modulo the pool
length).  randint ranges from the source: oZOff in [0,200], cZOff in [0,150],
cTimerReset in [40,80]. -/
structure Env where
  shakeX : ℚ
  shakeY : ℚ
  oZOff : ℚ
  oTypeIdx : ℕ
  oMulti : ℚ
  oSafeIdx : ℕ
  oLaneIdx : ℕ
  cZOff : ℚ
  cTypeIdx : ℕ
  cPattern : ℚ
  cLaneIdx : ℕ
  cTimerReset : ℤ
  coinVels : ℕ → Vector3
  gemVels : ℕ → Vector3
  powerVels : ℕ → Vector3
  explVels : ℕ → Vector3

/-- Camera.update: damped follow of the player (blend 0.1 toward
x*0.3 and z-200) plus random jitter while shake_duration > 0. -/
def Camera.update (env : Env) (c : Camera) (player_pos : Vector3) : Camera :=
  let target_x := player_pos.x * (3/10)
  let target_z := player_pos.z - 200
  let pos : Vector3 :=
    { c.position with
        x := c.position.x + (target_x - c.position.x) * (1/10),
        z := c.position.z + (target_z - c.position.z) * (1/10) }
  if c.shake_duration > 0 then
    { c with position := { pos with x := pos.x + env.shakeX, y := pos.y + env.shakeY },
             shake_duration := c.shake_duration - 1 }
  else
    { c with position := pos }

/-- Game session state (the fields of Game touched by the simulation;
the pygame screen, clock and fonts are pure I/O handles). -/
structure Game where
  state : GameState
  player : Player
  camera : Camera
  obstacles : List Obstacle
  collectibles : List Collectible
  particles : List Particle
  score : ℤ
  coins : ℤ
  distance : ℚ
  speed_multiplier : ℚ
  difficulty : ℤ
  obstacle_spawn_timer : ℤ
  collectible_spawn_timer : ℤ
  high_score : ℤ
deriving DecidableEq

/-- Game.reset_game / fresh-session field values (state PLAYING as set by
the menu handler that starts a run). -/
def Game.fresh : Game :=
  { state := GameState.PLAYING, player := Player.init, camera := Camera.init
    obstacles := [], collectibles := [], particles := []
    score := 0, coins := 0, distance := 0, speed_multiplier := 1, difficulty := 1
    obstacle_spawn_timer := 0, collectible_spawn_timer := 0, high_score := 0 }

/-- spawn_obstacle: type pool grows with difficulty; at difficulty >= 4 a
0.3-probability draw makes a multi-lane spawn filling every lane but one. -/
def spawn_obstacle (env : Env) (pl : Player) (difficulty : ℤ)
    (obs : List Obstacle) : List Obstacle :=
  let spawn_z := pl.position.z + 400 + env.oZOff
  let pool := [ObstacleType.barrier, ObstacleType.gap, ObstacleType.boulder]
      ++ (if difficulty ≥ 3 then [ObstacleType.moving_barrier] else [])
      ++ (if difficulty ≥ 5 then [ObstacleType.spike_trap] else [])
  let ty := pool.getD (env.oTypeIdx % pool.length) ObstacleType.barrier
  if difficulty ≥ 4 ∧ env.oMulti < 3/10 then
    let safe := [(-1 : ℤ), 0, 1].getD (env.oSafeIdx % 3) 0
    obs ++ (([(-1 : ℤ), 0, 1].filter (fun lane => lane ≠ safe)).map fun lane =>
      Obstacle.mk' ⟨(Int.cast lane : ℚ) * 60, 0, spawn_z⟩ ty lane)
  else
    let lane := [(-1 : ℤ), 0, 1].getD (env.oLaneIdx % 3) 0
    obs ++ [Obstacle.mk' ⟨(lane : ℚ) * 60, 0, spawn_z⟩ ty lane]

/-- spawn_collectible: 0.4-probability line of three center-lane coins,
otherwise a single item of weighted type at a random lane. -/
def spawn_collectible (env : Env) (pl : Player)
    (cs : List Collectible) : List Collectible :=
  let spawn_z := pl.position.z + 300 + env.cZOff
  let pool := [CollectibleType.coin, CollectibleType.coin, CollectibleType.coin,
               CollectibleType.gem, CollectibleType.powerup]
  let ty := pool.getD (env.cTypeIdx % 5) CollectibleType.coin
  if env.cPattern < 2/5 then
    cs ++ (List.range 3).map fun i =>
      Collectible.mk' ⟨0, 10, spawn_z + (i : ℚ) * 30⟩ CollectibleType.coin
  else
    let lane := [(-1 : ℤ), 0, 1].getD (env.cLaneIdx % 3) 0
    let height : ℚ := if ty = CollectibleType.coin then 10 else 20
    cs ++ [Collectible.mk' ⟨(lane : ℚ) * 60, height, spawn_z⟩ ty]

/-- A burst of n add_particle calls with consecutive random velocities. -/
def addBurst (ps : List Particle) (vels : ℕ → Vector3) (n : ℕ)
    (position : Vector3) (color : Color) (life : ℤ) : List Particle :=
  ps ++ (List.range n).map fun i =>
    { pos := ⟨position.x, position.y, position.z⟩, vel := vels i,
      color := color, life := life, max_life := life }

/-- collect_item: per-type coin/score/invulnerability rewards and particle
bursts (coin +1/+10 gold 30, gem +5/+50 blue 40, powerup +100 red 50 and
invulnerable_timer 180). -/
def Game.collect_item (env : Env) (c : Collectible) (g : Game) : Game :=
  match c.type with
  | CollectibleType.coin =>
      { g with coins := g.coins + 1, score := g.score + 10,
               particles := addBurst g.particles env.coinVels 5 c.position GOLD 30 }
  | CollectibleType.gem =>
      { g with coins := g.coins + 5, score := g.score + 50,
               particles := addBurst g.particles env.gemVels 8 c.position BLUE 40 }
  | CollectibleType.powerup =>
      { g with player := { g.player with invulnerable_timer := 180 },
               score := g.score + 100,
               particles := addBurst g.particles env.powerVels 10 c.position RED 50 }

/-- game_over: state GAME_OVER, high-score update (persisting the record is
file I/O outside the session state), camera shake 10/30, 20 red particles. -/
def Game.game_over (env : Env) (g : Game) : Game :=
  let g1 : Game := { g with state := GameState.GAME_OVER }
  let g2 : Game :=
    if g1.score > g1.high_score then { g1 with high_score := g1.score } else g1
  { g2 with camera := g2.camera.add_shake 10 30,
            particles := addBurst g2.particles env.explVels 20 g2.player.position RED 60 }

/-- The avoidance rule of check_collisions: can_avoid starts False and is
granted only for barrier-while-SLIDING or gap-while-JUMPING. -/
def canAvoid (o : Obstacle) (st : PlayerState) : Bool :=
  if o.type = ObstacleType.barrier ∧ st = PlayerState.SLIDING then true
  else if o.type = ObstacleType.gap ∧ st = PlayerState.JUMPING then true
  else false

/-- The whole guard chain of the obstacle loop in check_collisions, for one
obstacle: active, lane match, rect overlap with no invulnerability, and no
avoidance.  The obstacle rect is only computed behind the lane test, as in
the source. -/
def fatalHit (cam : Camera) (pl : Player) (pr : Rect) (o : Obstacle) : Bool :=
  o.active && decide (|(o.lane : ℚ) - (pl.lane : ℚ)| < 1/2) &&
  (colliderect pr (o.get_collision_rect cam) &&
   decide (pl.invulnerable_timer ≤ 0) && !(canAvoid o pl.state))

/-- The collectible loop of check_collisions: every active collectible whose
rect overlaps the (fixed) player rect is collected and dropped from the
list; the others are kept in order.  Called with g.collectibles emptied,
it rebuilds the kept list in g.collectibles. -/
def collectLoop (env : Env) (pr : Rect) (g : Game) : List Collectible → Game
  | [] => g
  | c :: rest =>
      if c.active && colliderect pr (c.get_collision_rect g.camera) then
        collectLoop env pr (Game.collect_item env c g) rest
      else
        collectLoop env pr { g with collectibles := g.collectibles ++ [c] } rest

/-- The obstacle loop of check_collisions: does some obstacle force a
game over this tick? -/
def hasFatal (g : Game) : Bool :=
  g.obstacles.any (fatalHit g.camera g.player (g.player.get_collision_rect g.camera))

/-- check_collisions: the obstacle loop calls game_over and returns at the
first fatal hit (game_over does not depend on which obstacle hit, so the
early return is the any-test in hasFatal); only when no obstacle is fatal
does the collectible loop run. -/
def Game.check_collisions (env : Env) (g : Game) : Game :=
  let pr := g.player.get_collision_rect g.camera
  if hasFatal g then
    Game.game_over env g
  else
    collectLoop env pr { g with collectibles := [] } g.collectibles

/-- update_game block 1: advance the player, then the camera toward the
updated player position. -/
def Game.stepPlayerCam (env : Env) (g : Game) : Game :=
  { g with player := g.player.update,
           camera := Camera.update env g.camera g.player.update.position }

/-- update_game block 2: distance += player.velocity.z * speed_multiplier
and score = int(distance / 10).  (Player.update never changes the
velocity, so reading it after block 1 reads the same value the source
reads from the updated player object.) -/
def Game.stepScore (g : Game) : Game :=
  let distance := g.distance + g.player.velocity.z * g.speed_multiplier
  { g with distance := distance, score := pyInt (distance / 10) }

/-- update_game block 3: difficulty progression whenever score is a
positive multiple of 500 and difficulty < 10. -/
def Game.stepDifficulty (g : Game) : Game :=
  if g.score > 0 ∧ g.score % 500 = 0 ∧ g.difficulty < 10 then
    { g with difficulty := g.difficulty + 1,
             speed_multiplier := g.speed_multiplier + 1/10,
             player := { g.player with velocity :=
               { g.player.velocity with z := g.player.velocity.z + 1/2 } } }
  else g

/-- update_game block 4: obstacle spawn timer and spawn, with the interval
shrinking with difficulty down to the floor 30. -/
def Game.stepObstacleSpawn (env : Env) (g : Game) : Game :=
  let ot := g.obstacle_spawn_timer - 1
  if ot ≤ 0 then
    { g with obstacles := spawn_obstacle env g.player g.difficulty g.obstacles,
             obstacle_spawn_timer := max 30 (90 - g.difficulty * 5) }
  else
    { g with obstacle_spawn_timer := ot }

/-- update_game block 5: collectible spawn timer and spawn, with the timer
reset to a fresh randint(40,80) draw. -/
def Game.stepCollectibleSpawn (env : Env) (g : Game) : Game :=
  let ct := g.collectible_spawn_timer - 1
  if ct ≤ 0 then
    { g with collectibles := spawn_collectible env g.player g.collectibles,
             collectible_spawn_timer := env.cTimerReset }
  else
    { g with collectible_spawn_timer := ct }

/-- update_game block 6: advance every obstacle and collectible and cull
the ones deactivated behind the player. -/
def Game.stepEntities (g : Game) : Game :=
  { g with
      obstacles := (g.obstacles.map (Obstacle.update g.player.position.z)).filter
        (fun o => o.active),
      collectibles := (g.collectibles.map (Collectible.update g.player.position.z)).filter
        (fun c => c.active) }

/-- update_game block 7: particle update. -/
def Game.stepParticles (g : Game) : Game :=
  { g with particles := particlesUpdate g.particles }

/-- update_game before check_collisions: the source's blocks in order. -/
def preCollide (env : Env) (g : Game) : Game :=
  Game.stepParticles (Game.stepEntities (Game.stepCollectibleSpawn env
    (Game.stepObstacleSpawn env (Game.stepDifficulty (Game.stepScore
      (Game.stepPlayerCam env g))))))

/-- update_game: one full tick. -/
def update_game (env : Env) (g : Game) : Game :=
  Game.check_collisions env (preCollide env g)


/-- n-fold particle advance: n applications of the per-update motion and
life decrement. -/
def Particle.advanceN : ℕ → Particle → Particle
  | 0, p => p
  | n+1, p => Particle.advanceN n p.step

/-- The score bonus collect_item grants per collectible type. -/
def bonusOf : CollectibleType → ℤ
  | CollectibleType.coin => 10
  | CollectibleType.gem => 50
  | CollectibleType.powerup => 100

/-- Total score bonus of one tick's collectible phase: sum of bonusOf over
the active collectibles whose rects overlap the player rect. -/
def bonusTotal (pr : Rect) (cam : Camera) (cs : List Collectible) : ℤ :=
  (cs.filter fun c => c.active && colliderect pr (c.get_collision_rect cam)).foldr
    (fun c a => bonusOf c.type + a) 0

/-- The score bonus collected during one whole update_game tick. -/
def tickBonus (env : Env) (g : Game) : ℤ :=
  let g1 := preCollide env g
  bonusTotal (g1.player.get_collision_rect g1.camera) g1.camera g1.collectibles

/-- Player actions a driver can interleave between ticks. -/
inductive Act where
  | left
  | right
  | tick
deriving DecidableEq, Repr

/-- Apply one action (or one Player.update tick). -/
def applyAct : Act → Player → Player
  | Act.left, p => p.move_left
  | Act.right, p => p.move_right
  | Act.tick, p => p.update

/-- Apply a sequence of actions in order. -/
def applyActs (acts : List Act) (p : Player) : Player :=
  acts.foldl (fun q a => applyAct a q) p

/-- Modelled from the spec: a projection whose perspective divisor is
clamped to a minimum of 0.1 for every input point, as the wording of the
clamp claim prescribes; the source routine clamps only when rel_z <= 0. -/
def project_3d_to_2d_minClamp (c : Camera) (point3d : Vector3) : ℤ × ℤ :=
  let rel_x := point3d.x - c.position.x
  let rel_y := point3d.y - c.position.y
  let rel_z0 := point3d.z - c.position.z
  let rel_z : ℚ := max rel_z0 (1/10)
  (pyInt (rel_x * 500 / rel_z + 600), pyInt (rel_y * 500 / rel_z + 400))

/-- The zero vector. -/
def zeroVec : Vector3 := ⟨0, 0, 0⟩

/-- A fixed tick environment for the concrete scenarios: no shake jitter,
offset draws 0, obstacle type barrier, obstacle and collectible lane -1,
collectible type gem, no coin-line pattern (draw 1 >= 0.4), multi-lane
draw 1 >= 0.3, collectible timer reset 80 (a legal randint(40,80) value),
zero particle velocities. -/
def env0 : Env :=
  { shakeX := 0, shakeY := 0, oZOff := 0, oTypeIdx := 0, oMulti := 1, oSafeIdx := 0,
    oLaneIdx := 0, cZOff := 0, cTypeIdx := 3, cPattern := 1, cLaneIdx := 0,
    cTimerReset := 80, coinVels := fun _ => zeroVec, gemVels := fun _ => zeroVec,
    powerVels := fun _ => zeroVec, explVels := fun _ => zeroVec }

/-- A mid-run Playing state about to collect a powerup: the player is at
the origin moving forward, a powerup sits one tick ahead at z = 8, spawn
timers are high enough that nothing spawns for two ticks. -/
def gBonus : Game :=
  { state := GameState.PLAYING, player := Player.init, camera := Camera.init
    obstacles := [], collectibles := [Collectible.mk' ⟨0, 0, 8⟩ CollectibleType.powerup]
    particles := [], score := 10, coins := 0, distance := 100, speed_multiplier := 1
    difficulty := 1, obstacle_spawn_timer := 10, collectible_spawn_timer := 10
    high_score := 0 }

/-- A player currently mid-jump. -/
def pJump : Player :=
  { Player.init with state := PlayerState.JUMPING, jump_velocity := 18 }

/-- A player at the left lane bound. -/
def pLaneL : Player := { Player.init with lane := -1 }

/-- A player at the right lane bound. -/
def pLaneR : Player := { Player.init with lane := 1 }

/-- The initial camera, used by the projection scenarios. -/
def camC7 : Camera := Camera.init

/-- A point 0.05 in front of the camera plane: rel_z = 1/20, positive but
below 0.1, so the source divides by 1/20. -/
def ptC7 : Vector3 := ⟨1000, 50, -200 + 1/20⟩

/-- A point 50 units behind the camera plane: rel_z = -50 <= 0. -/
def ptBehind : Vector3 := ⟨3, 7, -250⟩

/-- A Playing state in which a boulder and a coin both overlap the player
on screen this tick. -/
def gFatal : Game :=
  { Game.fresh with
      obstacles := [Obstacle.mk' ⟨0, 0, 0⟩ ObstacleType.boulder 0]
      collectibles := [Collectible.mk' ⟨0, 0, 0⟩ CollectibleType.coin]
      score := 7, coins := 2 }

/-- The jump scenario: jump() from the initial Running player, then k ticks
of Player.update. -/
def jumpTrace (k : ℕ) : Player := Player.update^[k] Player.init.jump


/-- The C3 fresh-run state after 20 ticks (computed literal). -/
def c3S20 : Game :=
  { state := GameState.PLAYING, player := { position := { x := 0, y := 0, z := 160 }, velocity := { x := 0, y := 0, z := 8 }, state := PlayerState.RUNNING, lane := 0, jump_velocity := 0, slide_timer := 0, turn_timer := 0, invulnerable_timer := 0, size := 20, animation_frame := 2, animation_timer := 0 }, camera := { position := { x := 0, y := -50, z := (-1290581010868487640791 : Rat)/12500000000000000000 }, target := { x := 0, y := 0, z := 0 }, shake_intensity := 0, shake_duration := 0 }, obstacles := [{ position := { x := -60, y := 0, z := 408 }, type := ObstacleType.barrier, lane := -1, size := 30, active := true }], collectibles := [{ position := { x := -60, y := 20, z := 308 }, type := CollectibleType.gem, size := 15, active := true, rotation := 100 }], particles := [], score := 16, coins := 0, distance := 160, speed_multiplier := 1, difficulty := 1, obstacle_spawn_timer := 66, collectible_spawn_timer := 61, high_score := 0 }

/-- The C3 fresh-run state after 40 ticks (computed literal). -/
def c3S40 : Game :=
  { state := GameState.PLAYING, player := { position := { x := 0, y := 0, z := 320 }, velocity := { x := 0, y := 0, z := 8 }, state := PlayerState.RUNNING, lane := 0, jump_velocity := 0, slide_timer := 0, turn_timer := 0, invulnerable_timer := 0, size := 20, animation_frame := 0, animation_timer := 0 }, camera := { position := { x := 0, y := -50, z := (61330279464729113309844748891857449678409 : Rat)/1250000000000000000000000000000000000000 }, target := { x := 0, y := 0, z := 0 }, shake_intensity := 0, shake_duration := 0 }, obstacles := [{ position := { x := -60, y := 0, z := 408 }, type := ObstacleType.barrier, lane := -1, size := 30, active := true }], collectibles := [{ position := { x := -60, y := 20, z := 308 }, type := CollectibleType.gem, size := 15, active := true, rotation := 200 }], particles := [], score := 32, coins := 0, distance := 320, speed_multiplier := 1, difficulty := 1, obstacle_spawn_timer := 46, collectible_spawn_timer := 41, high_score := 0 }

/-- The C3 fresh-run state after 60 ticks (computed literal). -/
def c3S60 : Game :=
  { state := GameState.PLAYING, player := { position := { x := 0, y := 0, z := 480 }, velocity := { x := 0, y := 0, z := 8 }, state := PlayerState.RUNNING, lane := 0, jump_velocity := 0, slide_timer := 0, turn_timer := 0, invulnerable_timer := 0, size := 20, animation_frame := 2, animation_timer := 0 }, camera := { position := { x := 0, y := -50, z := (26016173092699229880893718618465586445357583280647840659957609 : Rat)/125000000000000000000000000000000000000000000000000000000000 }, target := { x := 0, y := 0, z := 0 }, shake_intensity := 0, shake_duration := 0 }, obstacles := [{ position := { x := -60, y := 0, z := 408 }, type := ObstacleType.barrier, lane := -1, size := 30, active := true }], collectibles := [], particles := [], score := 48, coins := 0, distance := 480, speed_multiplier := 1, difficulty := 1, obstacle_spawn_timer := 26, collectible_spawn_timer := 21, high_score := 0 }

/-- The C3 fresh-run state after 80 ticks (computed literal). -/
def c3S80 : Game :=
  { state := GameState.PLAYING, player := { position := { x := 0, y := 0, z := 640 }, velocity := { x := 0, y := 0, z := 8 }, state := PlayerState.RUNNING, lane := 0, jump_velocity := 0, slide_timer := 0, turn_timer := 0, invulnerable_timer := 0, size := 20, animation_frame := 0, animation_timer := 0 }, camera := { position := { x := 0, y := -50, z := (4600196627050475552913618075908526912116283103450944214766927315415537966391196809 : Rat)/12500000000000000000000000000000000000000000000000000000000000000000000000000000 }, target := { x := 0, y := 0, z := 0 }, shake_intensity := 0, shake_duration := 0 }, obstacles := [{ position := { x := -60, y := 0, z := 408 }, type := ObstacleType.barrier, lane := -1, size := 30, active := true }], collectibles := [], particles := [], score := 64, coins := 0, distance := 640, speed_multiplier := 1, difficulty := 1, obstacle_spawn_timer := 6, collectible_spawn_timer := 1, high_score := 0 }

/-- The C3 fresh-run state after 100 ticks (computed literal). -/
def c3S100 : Game :=
  { state := GameState.PLAYING, player := { position := { x := 0, y := 0, z := 800 }, velocity := { x := 0, y := 0, z := 8 }, state := PlayerState.RUNNING, lane := 0, jump_velocity := 0, slide_timer := 0, turn_timer := 0, invulnerable_timer := 0, size := 20, animation_frame := 2, animation_timer := 0 }, camera := { position := { x := 0, y := -50, z := (660002390525899882872924049031898322016641463101073880550463771174655651832418111719646949462291396009 : Rat)/1250000000000000000000000000000000000000000000000000000000000000000000000000000000000000000000000000 }, target := { x := 0, y := 0, z := 0 }, shake_intensity := 0, shake_duration := 0 }, obstacles := [{ position := { x := -60, y := 0, z := 1088 }, type := ObstacleType.barrier, lane := -1, size := 30, active := true }], collectibles := [{ position := { x := -60, y := 20, z := 948 }, type := CollectibleType.gem, size := 15, active := true, rotation := 100 }], particles := [], score := 80, coins := 0, distance := 800, speed_multiplier := 1, difficulty := 1, obstacle_spawn_timer := 71, collectible_spawn_timer := 61, high_score := 0 }

/-- The C3 fresh-run state after 120 ticks (computed literal). -/
def c3S120 : Game :=
  { state := GameState.PLAYING, player := { position := { x := 0, y := 0, z := 960 }, velocity := { x := 0, y := 0, z := 8 }, state := PlayerState.RUNNING, lane := 0, jump_velocity := 0, slide_timer := 0, turn_timer := 0, invulnerable_timer := 0, size := 20, animation_frame := 0, animation_timer := 0 }, camera := { position := { x := 0, y := -50, z := (86000029063214161986986067637023528620257232321357468243916695175073145996989031241146647825183302277227705597018408555209 : Rat)/125000000000000000000000000000000000000000000000000000000000000000000000000000000000000000000000000000000000000000000000 }, target := { x := 0, y := 0, z := 0 }, shake_intensity := 0, shake_duration := 0 }, obstacles := [{ position := { x := -60, y := 0, z := 1088 }, type := ObstacleType.barrier, lane := -1, size := 30, active := true }], collectibles := [{ position := { x := -60, y := 20, z := 948 }, type := CollectibleType.gem, size := 15, active := true, rotation := 200 }], particles := [], score := 96, coins := 0, distance := 960, speed_multiplier := 1, difficulty := 1, obstacle_spawn_timer := 51, collectible_spawn_timer := 41, high_score := 0 }

/-- The C3 fresh-run state after 140 ticks (computed literal). -/
def c3S140 : Game :=
  { state := GameState.PLAYING, player := { position := { x := 0, y := 0, z := 1120 }, velocity := { x := 0, y := 0, z := 8 }, state := PlayerState.RUNNING, lane := 0, jump_velocity := 0, slide_timer := 0, turn_timer := 0, invulnerable_timer := 0, size := 20, animation_frame := 2, animation_timer := 0 }, camera := { position := { x := 0, y := -50, z := (10600000353340834946363345257473017597911079933781446508208388719162940497886257062411267034976578524965264261618554821962433800999907190674409 : Rat)/12500000000000000000000000000000000000000000000000000000000000000000000000000000000000000000000000000000000000000000000000000000000000000000 }, target := { x := 0, y := 0, z := 0 }, shake_intensity := 0, shake_duration := 0 }, obstacles := [{ position := { x := -60, y := 0, z := 1088 }, type := ObstacleType.barrier, lane := -1, size := 30, active := true }], collectibles := [], particles := [], score := 112, coins := 0, distance := 1120, speed_multiplier := 1, difficulty := 1, obstacle_spawn_timer := 31, collectible_spawn_timer := 21, high_score := 0 }

/-- The C3 fresh-run state after 160 ticks (computed literal). -/
def c3S160 : Game :=
  { state := GameState.PLAYING, player := { position := { x := 0, y := 0, z := 1280 }, velocity := { x := 0, y := 0, z := 8 }, state := PlayerState.RUNNING, lane := 0, jump_velocity := 0, slide_timer := 0, turn_timer := 0, invulnerable_timer := 0, size := 20, animation_frame := 0, animation_timer := 0 }, camera := { position := { x := 0, y := -50, z := (1260000004295799664301737030378306532230479662246023677353146624650770473311947881924651276132500949208163404166795664453532670663357741137600786532015103485753609 : Rat)/1250000000000000000000000000000000000000000000000000000000000000000000000000000000000000000000000000000000000000000000000000000000000000000000000000000000000000 }, target := { x := 0, y := 0, z := 0 }, shake_intensity := 0, shake_duration := 0 }, obstacles := [{ position := { x := -60, y := 0, z := 1088 }, type := ObstacleType.barrier, lane := -1, size := 30, active := true }], collectibles := [], particles := [], score := 128, coins := 0, distance := 1280, speed_multiplier := 1, difficulty := 1, obstacle_spawn_timer := 11, collectible_spawn_timer := 1, high_score := 0 }

/-- The C3 fresh-run state after 180 ticks (computed literal). -/
def c3S180 : Game :=
  { state := GameState.PLAYING, player := { position := { x := 0, y := 0, z := 1440 }, velocity := { x := 0, y := 0, z := 8 }, state := PlayerState.RUNNING, lane := 0, jump_velocity := 0, slide_timer := 0, turn_timer := 0, invulnerable_timer := 0, size := 20, animation_frame := 2, animation_timer := 0 }, camera := { position := { x := 0, y := -50, z := (146000000052226895197709578372156471421169310383980817485079062358448435612040315502855394952348837866966144815836290966448962341841264961544065279388544410108981718679226404541792809 : Rat)/125000000000000000000000000000000000000000000000000000000000000000000000000000000000000000000000000000000000000000000000000000000000000000000000000000000000000000000000000000000000 }, target := { x := 0, y := 0, z := 0 }, shake_intensity := 0, shake_duration := 0 }, obstacles := [{ position := { x := -60, y := 0, z := 1768 }, type := ObstacleType.barrier, lane := -1, size := 30, active := true }], collectibles := [{ position := { x := -60, y := 20, z := 1588 }, type := CollectibleType.gem, size := 15, active := true, rotation := 100 }], particles := [], score := 144, coins := 0, distance := 1440, speed_multiplier := 1, difficulty := 1, obstacle_spawn_timer := 76, collectible_spawn_timer := 61, high_score := 0 }

/-- The C3 fresh-run state after 200 ticks (computed literal). -/
def c3S200 : Game :=
  { state := GameState.PLAYING, player := { position := { x := 0, y := 0, z := 1600 }, velocity := { x := 0, y := 0, z := 8 }, state := PlayerState.RUNNING, lane := 0, jump_velocity := 0, slide_timer := 0, turn_timer := 0, invulnerable_timer := 0, size := 20, animation_frame := 0, animation_timer := 0 }, camera := { position := { x := 0, y := -50, z := (16600000000634957119778979931412178444183413165948571546515085841865841008883358769964246407409213686765024207423394571013428203206802368137646421100247305760090817313251642567913842818731989550006792009 : Rat)/12500000000000000000000000000000000000000000000000000000000000000000000000000000000000000000000000000000000000000000000000000000000000000000000000000000000000000000000000000000000000000000000000000000 }, target := { x := 0, y := 0, z := 0 }, shake_intensity := 0, shake_duration := 0 }, obstacles := [{ position := { x := -60, y := 0, z := 1768 }, type := ObstacleType.barrier, lane := -1, size := 30, active := true }], collectibles := [{ position := { x := -60, y := 20, z := 1588 }, type := CollectibleType.gem, size := 15, active := true, rotation := 200 }], particles := [], score := 160, coins := 0, distance := 1600, speed_multiplier := 1, difficulty := 1, obstacle_spawn_timer := 56, collectible_spawn_timer := 41, high_score := 0 }

/-- The C3 fresh-run state after 220 ticks (computed literal). -/
def c3S220 : Game :=
  { state := GameState.PLAYING, player := { position := { x := 0, y := 0, z := 1760 }, velocity := { x := 0, y := 0, z := 8 }, state := PlayerState.RUNNING, lane := 0, jump_velocity := 0, slide_timer := 0, turn_timer := 0, invulnerable_timer := 0, size := 20, animation_frame := 2, animation_timer := 0 }, camera := { position := { x := 0, y := -50, z := (1860000000007719596243119177373899461675291399264004190397081737167878090911076421008991405175950738278775544307430577961402667843581478007454613665227482259312446050272801041703693645947925003673439400928642933341928751209 : Rat)/1250000000000000000000000000000000000000000000000000000000000000000000000000000000000000000000000000000000000000000000000000000000000000000000000000000000000000000000000000000000000000000000000000000000000000000000000000 }, target := { x := 0, y := 0, z := 0 }, shake_intensity := 0, shake_duration := 0 }, obstacles := [{ position := { x := -60, y := 0, z := 1768 }, type := ObstacleType.barrier, lane := -1, size := 30, active := true }], collectibles := [], particles := [], score := 176, coins := 0, distance := 1760, speed_multiplier := 1, difficulty := 1, obstacle_spawn_timer := 36, collectible_spawn_timer := 21, high_score := 0 }

/-- The C3 fresh-run state after 240 ticks (computed literal). -/
def c3S240 : Game :=
  { state := GameState.PLAYING, player := { position := { x := 0, y := 0, z := 1920 }, velocity := { x := 0, y := 0, z := 8 }, state := PlayerState.RUNNING, lane := 0, jump_velocity := 0, slide_timer := 0, turn_timer := 0, invulnerable_timer := 0, size := 20, animation_frame := 0, animation_timer := 0 }, camera := { position := { x := 0, y := -50, z := (206000000000093852268602835656537476692616386943639481558307572171383909527388420079640093313402943199173390617405648310207296248226440228181935450156697810659457822391474039389919431038274605406418156199296864215076632543764942716764755670409 : Rat)/125000000000000000000000000000000000000000000000000000000000000000000000000000000000000000000000000000000000000000000000000000000000000000000000000000000000000000000000000000000000000000000000000000000000000000000000000000000000000000000000 }, target := { x := 0, y := 0, z := 0 }, shake_intensity := 0, shake_duration := 0 }, obstacles := [{ position := { x := -60, y := 0, z := 1768 }, type := ObstacleType.barrier, lane := -1, size := 30, active := true }], collectibles := [], particles := [], score := 192, coins := 0, distance := 1920, speed_multiplier := 1, difficulty := 1, obstacle_spawn_timer := 16, collectible_spawn_timer := 1, high_score := 0 }

/-- The C3 fresh-run state after 260 ticks (computed literal). -/
def c3S260 : Game :=
  { state := GameState.PLAYING, player := { position := { x := 0, y := 0, z := 2080 }, velocity := { x := 0, y := 0, z := 8 }, state := PlayerState.RUNNING, lane := 0, jump_velocity := 0, slide_timer := 0, turn_timer := 0, invulnerable_timer := 0, size := 20, animation_frame := 2, animation_timer := 0 }, camera := { position := { x := 0, y := -50, z := (22600000000001141024484246828148061957303966534241740401151756914947559846762449061758909091044314059305389435247347379971462516015770659809558924608826265105192228447436348657924846469212058561802075832929193709491707010038190468696558608457404987842105335549609 : Rat)/12500000000000000000000000000000000000000000000000000000000000000000000000000000000000000000000000000000000000000000000000000000000000000000000000000000000000000000000000000000000000000000000000000000000000000000000000000000000000000000000000000000000000000000 }, target := { x := 0, y := 0, z := 0 }, shake_intensity := 0, shake_duration := 0 }, obstacles := [{ position := { x := -60, y := 0, z := 2448 }, type := ObstacleType.barrier, lane := -1, size := 30, active := true }], collectibles := [{ position := { x := -60, y := 20, z := 2228 }, type := CollectibleType.gem, size := 15, active := true, rotation := 100 }], particles := [], score := 208, coins := 0, distance := 2080, speed_multiplier := 1, difficulty := 1, obstacle_spawn_timer := 81, collectible_spawn_timer := 61, high_score := 0 }

/-- The C3 fresh-run state after 280 ticks (computed literal). -/
def c3S280 : Game :=
  { state := GameState.PLAYING, player := { position := { x := 0, y := 0, z := 2240 }, velocity := { x := 0, y := 0, z := 8 }, state := PlayerState.RUNNING, lane := 0, jump_velocity := 0, slide_timer := 0, turn_timer := 0, invulnerable_timer := 0, size := 20, animation_frame := 0, animation_timer := 0 }, camera := { position := { x := 0, y := -50, z := (2460000000000013872193960065909361801611420888914745776038466026587213177685530583496345176798620052922786363306713891076239896861450436025285535176495849247718202430640380825619564555389531171980707640057167089731087142078667579731659940493804221007867987509380356754324072916388809 : Rat)/1250000000000000000000000000000000000000000000000000000000000000000000000000000000000000000000000000000000000000000000000000000000000000000000000000000000000000000000000000000000000000000000000000000000000000000000000000000000000000000000000000000000000000000000000000000000000000 }, target := { x := 0, y := 0, z := 0 }, shake_intensity := 0, shake_duration := 0 }, obstacles := [{ position := { x := -60, y := 0, z := 2448 }, type := ObstacleType.barrier, lane := -1, size := 30, active := true }], collectibles := [{ position := { x := -60, y := 20, z := 2228 }, type := CollectibleType.gem, size := 15, active := true, rotation := 200 }], particles := [], score := 224, coins := 0, distance := 2240, speed_multiplier := 1, difficulty := 1, obstacle_spawn_timer := 61, collectible_spawn_timer := 41, high_score := 0 }

/-- The C3 fresh-run state after 300 ticks (computed literal). -/
def c3S300 : Game :=
  { state := GameState.PLAYING, player := { position := { x := 0, y := 0, z := 2400 }, velocity := { x := 0, y := 0, z := 8 }, state := PlayerState.RUNNING, lane := 0, jump_velocity := 0, slide_timer := 0, turn_timer := 0, invulnerable_timer := 0, size := 20, animation_frame := 2, animation_timer := 0 }, camera := { position := { x := 0, y := -50, z := (266000000000000168653493349631458980786179283223110818776221278935034021702189848907198668419873108535081390221277711269575291746739193411621789238071459766256095956335715750464492524812265907312074061987473411593295185839643892498271785740267214283407802421205353937900335130150753539230014919146188009 : Rat)/125000000000000000000000000000000000000000000000000000000000000000000000000000000000000000000000000000000000000000000000000000000000000000000000000000000000000000000000000000000000000000000000000000000000000000000000000000000000000000000000000000000000000000000000000000000000000000000000000000000000 }, target := { x := 0, y := 0, z := 0 }, shake_intensity := 0, shake_duration := 0 }, obstacles := [{ position := { x := -60, y := 0, z := 2448 }, type := ObstacleType.barrier, lane := -1, size := 30, active := true }], collectibles := [], particles := [], score := 240, coins := 0, distance := 2400, speed_multiplier := 1, difficulty := 1, obstacle_spawn_timer := 41, collectible_spawn_timer := 21, high_score := 0 }

/-- The C3 fresh-run state after 320 ticks (computed literal). -/
def c3S320 : Game :=
  { state := GameState.PLAYING, player := { position := { x := 0, y := 0, z := 2560 }, velocity := { x := 0, y := 0, z := 8 }, state := PlayerState.RUNNING, lane := 0, jump_velocity := 0, slide_timer := 0, turn_timer := 0, invulnerable_timer := 0, size := 20, animation_frame := 0, animation_timer := 0 }, camera := { position := { x := 0, y := -50, z := (28600000000000002050432750646101840391335469287879831815929805207852325995359027954469191794671743381261857048287973447131401026859779976760361654132110042100718063313345003389199564626024544433362323405271383895980841575215010259255471211755594963857860786236149381102564653170823380303176415186793158941098385558072947209 : Rat)/12500000000000000000000000000000000000000000000000000000000000000000000000000000000000000000000000000000000000000000000000000000000000000000000000000000000000000000000000000000000000000000000000000000000000000000000000000000000000000000000000000000000000000000000000000000000000000000000000000000000000000000000000000000 }, target := { x := 0, y := 0, z := 0 }, shake_intensity := 0, shake_duration := 0 }, obstacles := [{ position := { x := -60, y := 0, z := 2448 }, type := ObstacleType.barrier, lane := -1, size := 30, active := true }], collectibles := [], particles := [], score := 256, coins := 0, distance := 2560, speed_multiplier := 1, difficulty := 1, obstacle_spawn_timer := 21, collectible_spawn_timer := 1, high_score := 0 }

/-- The C3 fresh-run state after 340 ticks (computed literal). -/
def c3S340 : Game :=
  { state := GameState.PLAYING, player := { position := { x := 0, y := 0, z := 2720 }, velocity := { x := 0, y := 0, z := 8 }, state := PlayerState.RUNNING, lane := 0, jump_velocity := 0, slide_timer := 0, turn_timer := 0, invulnerable_timer := 0, size := 20, animation_frame := 2, animation_timer := 0 }, camera := { position := { x := 0, y := -50, z := (3060000000000000024928475428649200955947484830940184057666590361401467075837230837169842438787700288429988847809441313252091030329595305809708567671990834134931053517738883042038580298853944923907581437207417703983331463509551578757128819259191984770864330592787882296780218907292295301031544674123345071243751183193567069598046562686144666409 : Rat)/1250000000000000000000000000000000000000000000000000000000000000000000000000000000000000000000000000000000000000000000000000000000000000000000000000000000000000000000000000000000000000000000000000000000000000000000000000000000000000000000000000000000000000000000000000000000000000000000000000000000000000000000000000000000000000000000000000 }, target := { x := 0, y := 0, z := 0 }, shake_intensity := 0, shake_duration := 0 }, obstacles := [{ position := { x := -60, y := 0, z := 2448 }, type := ObstacleType.barrier, lane := -1, size := 30, active := true }], collectibles := [{ position := { x := -60, y := 20, z := 2868 }, type := CollectibleType.gem, size := 15, active := true, rotation := 100 }], particles := [], score := 272, coins := 0, distance := 2720, speed_multiplier := 1, difficulty := 1, obstacle_spawn_timer := 1, collectible_spawn_timer := 61, high_score := 0 }

/-- The C3 fresh-run state after 360 ticks (computed literal). -/
def c3S360 : Game :=
  { state := GameState.PLAYING, player := { position := { x := 0, y := 0, z := 2880 }, velocity := { x := 0, y := 0, z := 8 }, state := PlayerState.RUNNING, lane := 0, jump_velocity := 0, slide_timer := 0, turn_timer := 0, invulnerable_timer := 0, size := 20, animation_frame := 0, animation_timer := 0 }, camera := { position := { x := 0, y := -50, z := (326000000000000000303072064665837757706983477007078074343386682156235216946864777055537836357241850994088712425735725905761709049405149187990754375617102048843843214169385959235864999487436992459435562906004294484333310723851938129837637219347232775381362809544909797187637487710131085821088898282030463379673825690517978006653560833228319611433670421902209345609 : Rat)/125000000000000000000000000000000000000000000000000000000000000000000000000000000000000000000000000000000000000000000000000000000000000000000000000000000000000000000000000000000000000000000000000000000000000000000000000000000000000000000000000000000000000000000000000000000000000000000000000000000000000000000000000000000000000000000000000000000000000000000000 }, target := { x := 0, y := 0, z := 0 }, shake_intensity := 0, shake_duration := 0 }, obstacles := [{ position := { x := -60, y := 0, z := 3128 }, type := ObstacleType.barrier, lane := -1, size := 30, active := true }], collectibles := [{ position := { x := -60, y := 20, z := 2868 }, type := CollectibleType.gem, size := 15, active := true, rotation := 200 }], particles := [], score := 288, coins := 0, distance := 2880, speed_multiplier := 1, difficulty := 1, obstacle_spawn_timer := 66, collectible_spawn_timer := 41, high_score := 0 }

/-- The C3 fresh-run state after 380 ticks (computed literal). -/
def c3S380 : Game :=
  { state := GameState.PLAYING, player := { position := { x := 0, y := 0, z := 3040 }, velocity := { x := 0, y := 0, z := 8 }, state := PlayerState.RUNNING, lane := 0, jump_velocity := 0, slide_timer := 0, turn_timer := 0, invulnerable_timer := 0, size := 20, animation_frame := 2, animation_timer := 0 }, camera := { position := { x := 0, y := -50, z := (34600000000000000003684648772192923613430224670699460881633650394017230404648791903926607970214937715774009138484265465992801555613440359867470576990291590634596308784454006482256107291820998098281608604322311782490842208616333004295201432239088497452057112146521708653032218696554043080647207150680428896510431827409676483697657854278358358041155685552674152385045589536827514984809 : Rat)/12500000000000000000000000000000000000000000000000000000000000000000000000000000000000000000000000000000000000000000000000000000000000000000000000000000000000000000000000000000000000000000000000000000000000000000000000000000000000000000000000000000000000000000000000000000000000000000000000000000000000000000000000000000000000000000000000000000000000000000000000000000000000000000 }, target := { x := 0, y := 0, z := 0 }, shake_intensity := 0, shake_duration := 0 }, obstacles := [{ position := { x := -60, y := 0, z := 3128 }, type := ObstacleType.barrier, lane := -1, size := 30, active := true }], collectibles := [], particles := [], score := 304, coins := 0, distance := 3040, speed_multiplier := 1, difficulty := 1, obstacle_spawn_timer := 46, collectible_spawn_timer := 21, high_score := 0 }

/-- The C3 fresh-run state after 400 ticks (computed literal). -/
def c3S400 : Game :=
  { state := GameState.PLAYING, player := { position := { x := 0, y := 0, z := 3200 }, velocity := { x := 0, y := 0, z := 8 }, state := PlayerState.RUNNING, lane := 0, jump_velocity := 0, slide_timer := 0, turn_timer := 0, invulnerable_timer := 0, size := 20, animation_frame := 0, animation_timer := 0 }, camera := { position := { x := 0, y := -50, z := (3660000000000000000044796727106446429735933176267569655118222659026762828979627788856724768739705298056643410469349194998104174805667667886509284830745931868647234922612865147761611906042251249753433726712085020199212985930839440389978188799131748922707938314331893490662655238055317541113147106244928850549497225812516965196142263312174856488933213040256823569366617993891151623114287024784225709584009 : Rat)/1250000000000000000000000000000000000000000000000000000000000000000000000000000000000000000000000000000000000000000000000000000000000000000000000000000000000000000000000000000000000000000000000000000000000000000000000000000000000000000000000000000000000000000000000000000000000000000000000000000000000000000000000000000000000000000000000000000000000000000000000000000000000000000000000000000000000000 }, target := { x := 0, y := 0, z := 0 }, shake_intensity := 0, shake_duration := 0 }, obstacles := [{ position := { x := -60, y := 0, z := 3128 }, type := ObstacleType.barrier, lane := -1, size := 30, active := true }], collectibles := [], particles := [], score := 320, coins := 0, distance := 3200, speed_multiplier := 1, difficulty := 1, obstacle_spawn_timer := 26, collectible_spawn_timer := 1, high_score := 0 }

/-- The C3 fresh-run state after 420 ticks (computed literal). -/
def c3S420 : Game :=
  { state := GameState.PLAYING, player := { position := { x := 0, y := 0, z := 3360 }, velocity := { x := 0, y := 0, z := 8 }, state := PlayerState.RUNNING, lane := 0, jump_velocity := 0, slide_timer := 0, turn_timer := 0, invulnerable_timer := 0, size := 20, animation_frame := 2, animation_timer := 0 }, camera := { position := { x := 0, y := -50, z := (386000000000000000000544623621820842998997319462855987560248392578770672931700170418025126084222372565893907120654878025680477593440121111241678532606797654745001666911418745212075958436289787813365213504882376215641969690445621603736799873991497183772352962696458350754913178421413686059046979783669614350333339003869251785834976796341286295779573743219680797985805007789850908985885601957044158083760094731405122841143209 : Rat)/125000000000000000000000000000000000000000000000000000000000000000000000000000000000000000000000000000000000000000000000000000000000000000000000000000000000000000000000000000000000000000000000000000000000000000000000000000000000000000000000000000000000000000000000000000000000000000000000000000000000000000000000000000000000000000000000000000000000000000000000000000000000000000000000000000000000000000000000000000000000 }, target := { x := 0, y := 0, z := 0 }, shake_intensity := 0, shake_duration := 0 }, obstacles := [{ position := { x := -60, y := 0, z := 3128 }, type := ObstacleType.barrier, lane := -1, size := 30, active := true }], collectibles := [{ position := { x := -60, y := 20, z := 3508 }, type := CollectibleType.gem, size := 15, active := true, rotation := 100 }], particles := [], score := 336, coins := 0, distance := 3360, speed_multiplier := 1, difficulty := 1, obstacle_spawn_timer := 6, collectible_spawn_timer := 61, high_score := 0 }

/-- The C3 fresh-run state after 440 ticks (computed literal). -/
def c3S440 : Game :=
  { state := GameState.PLAYING, player := { position := { x := 0, y := 0, z := 3520 }, velocity := { x := 0, y := 0, z := 8 }, state := PlayerState.RUNNING, lane := 0, jump_velocity := 0, slide_timer := 0, turn_timer := 0, invulnerable_timer := 0, size := 20, animation_frame := 0, animation_timer := 0 }, camera := { position := { x := 0, y := -50, z := (40600000000000000000006621351795197746384958220495894835051799919322668003235604140499602511981664103035246160746891589658257901949193642217421563257213245455784258613640623796990245951939047980447693207289228086554695471740243070869290487548822410907248197952598083903720221624692839969056575454446523322416653911268575540728636773735879627986707911791301711180170156622947951421050725973655905155715243509982334864266124046820321927357662409 : Rat)/12500000000000000000000000000000000000000000000000000000000000000000000000000000000000000000000000000000000000000000000000000000000000000000000000000000000000000000000000000000000000000000000000000000000000000000000000000000000000000000000000000000000000000000000000000000000000000000000000000000000000000000000000000000000000000000000000000000000000000000000000000000000000000000000000000000000000000000000000000000000000000000000000000000 }, target := { x := 0, y := 0, z := 0 }, shake_intensity := 0, shake_duration := 0 }, obstacles := [{ position := { x := -60, y := 0, z := 3808 }, type := ObstacleType.barrier, lane := -1, size := 30, active := true }], collectibles := [{ position := { x := -60, y := 20, z := 3508 }, type := CollectibleType.gem, size := 15, active := true, rotation := 200 }], particles := [], score := 352, coins := 0, distance := 3520, speed_multiplier := 1, difficulty := 1, obstacle_spawn_timer := 71, collectible_spawn_timer := 41, high_score := 0 }

/-- The C3 fresh-run state after 460 ticks (computed literal). -/
def c3S460 : Game :=
  { state := GameState.PLAYING, player := { position := { x := 0, y := 0, z := 3680 }, velocity := { x := 0, y := 0, z := 8 }, state := PlayerState.RUNNING, lane := 0, jump_velocity := 0, slide_timer := 0, turn_timer := 0, invulnerable_timer := 0, size := 20, animation_frame := 2, animation_timer := 0 }, camera := { position := { x := 0, y := -50, z := (4260000000000000000000080500180012740228917748479740644243333695273309779200960940919494667527378389218795533579445382545876977511317748938995893464622265797782855797368098334533430224327458659815971620689097533948185503666223146837097963485782734536389016157803175206104695283797889193632961791592074992501370544354750928253249275390717510100049060408208736956018241407564169777739045012616597206052879020728170741389906035562839894862399308198640511550107141609 : Rat)/1250000000000000000000000000000000000000000000000000000000000000000000000000000000000000000000000000000000000000000000000000000000000000000000000000000000000000000000000000000000000000000000000000000000000000000000000000000000000000000000000000000000000000000000000000000000000000000000000000000000000000000000000000000000000000000000000000000000000000000000000000000000000000000000000000000000000000000000000000000000000000000000000000000000000000000000000000 }, target := { x := 0, y := 0, z := 0 }, shake_intensity := 0, shake_duration := 0 }, obstacles := [{ position := { x := -60, y := 0, z := 3808 }, type := ObstacleType.barrier, lane := -1, size := 30, active := true }], collectibles := [], particles := [], score := 368, coins := 0, distance := 3680, speed_multiplier := 1, difficulty := 1, obstacle_spawn_timer := 51, collectible_spawn_timer := 21, high_score := 0 }

/-- The C3 fresh-run state after 480 ticks (computed literal). -/
def c3S480 : Game :=
  { state := GameState.PLAYING, player := { position := { x := 0, y := 0, z := 3840 }, velocity := { x := 0, y := 0, z := 8 }, state := PlayerState.RUNNING, lane := 0, jump_velocity := 0, slide_timer := 0, turn_timer := 0, invulnerable_timer := 0, size := 20, animation_frame := 0, animation_timer := 0 }, camera := { position := { x := 0, y := -50, z := (446000000000000000000000978694257988756839781473110149344744156465702890406713248344056565463546675848376635738553835116145883076225990681672487555494798017730886386219811118669172576312927650730783192722256481011379791910027086014136970198418226918632410511952374474083217621348026267969517790855630108103345745387686969818919549208933599507371962450309984984402415669687296956450290875181542143385598285749453166796098591167048572637823039462521589710629806217441535234524337580809 : Rat)/125000000000000000000000000000000000000000000000000000000000000000000000000000000000000000000000000000000000000000000000000000000000000000000000000000000000000000000000000000000000000000000000000000000000000000000000000000000000000000000000000000000000000000000000000000000000000000000000000000000000000000000000000000000000000000000000000000000000000000000000000000000000000000000000000000000000000000000000000000000000000000000000000000000000000000000000000000000000000000000000 }, target := { x := 0, y := 0, z := 0 }, shake_intensity := 0, shake_duration := 0 }, obstacles := [{ position := { x := -60, y := 0, z := 3808 }, type := ObstacleType.barrier, lane := -1, size := 30, active := true }], collectibles := [], particles := [], score := 384, coins := 0, distance := 3840, speed_multiplier := 1, difficulty := 1, obstacle_spawn_timer := 31, collectible_spawn_timer := 1, high_score := 0 }

/-- The C3 fresh-run state after 500 ticks (computed literal). -/
def c3S500 : Game :=
  { state := GameState.PLAYING, player := { position := { x := 0, y := 0, z := 4000 }, velocity := { x := 0, y := 0, z := 8 }, state := PlayerState.RUNNING, lane := 0, jump_velocity := 0, slide_timer := 0, turn_timer := 0, invulnerable_timer := 0, size := 20, animation_frame := 2, animation_timer := 0 }, camera := { position := { x := 0, y := -50, z := (46600000000000000000000011898637375327259732014097337769299293688798294769333508984283314041457376120344095867004824655472557675187999271853241203558591238905570206788084527321583066248582026784887234902132968060683571469513601058297562370160530340607849942554095557486780070414555603129323099649923489573350062357188314294245225987472417074007240612055747584770991072267007636764090438484359179546617239448259650885170465292981543834807042949776925329153470838724492488095529295189557924920125696980009 : Rat)/12500000000000000000000000000000000000000000000000000000000000000000000000000000000000000000000000000000000000000000000000000000000000000000000000000000000000000000000000000000000000000000000000000000000000000000000000000000000000000000000000000000000000000000000000000000000000000000000000000000000000000000000000000000000000000000000000000000000000000000000000000000000000000000000000000000000000000000000000000000000000000000000000000000000000000000000000000000000000000000000000000000000000000000 }, target := { x := 0, y := 0, z := 0 }, shake_intensity := 0, shake_duration := 0 }, obstacles := [{ position := { x := -60, y := 0, z := 3808 }, type := ObstacleType.barrier, lane := -1, size := 30, active := true }], collectibles := [{ position := { x := -60, y := 20, z := 4148 }, type := CollectibleType.gem, size := 15, active := true, rotation := 100 }], particles := [], score := 400, coins := 0, distance := 4000, speed_multiplier := 1, difficulty := 1, obstacle_spawn_timer := 11, collectible_spawn_timer := 61, high_score := 0 }

/-- The C3 fresh-run state after 520 ticks (computed literal). -/
def c3S520 : Game :=
  { state := GameState.PLAYING, player := { position := { x := 0, y := 0, z := 4160 }, velocity := { x := 0, y := 0, z := 8 }, state := PlayerState.RUNNING, lane := 0, jump_velocity := 0, slide_timer := 0, turn_timer := 0, invulnerable_timer := 0, size := 20, animation_frame := 0, animation_timer := 0 }, camera := { position := { x := 0, y := -50, z := (4860000000000000000000000144659652627860019624340555583620810010049897946935076528681550149227474012591765474232006435585327929898869770875579101745835350657624655398246981254683719942956763880154271701714694746419706654997929390081327336733040063334085519480659988306659898448935779429759679982098674013183338364038631309656851110927525113691340521629687341867155792439657629952101865952132281097441966517678971218277755064681011373874669541006076903850957661702379759379661034931129488497516644120497906809507492233339209 : Rat)/1250000000000000000000000000000000000000000000000000000000000000000000000000000000000000000000000000000000000000000000000000000000000000000000000000000000000000000000000000000000000000000000000000000000000000000000000000000000000000000000000000000000000000000000000000000000000000000000000000000000000000000000000000000000000000000000000000000000000000000000000000000000000000000000000000000000000000000000000000000000000000000000000000000000000000000000000000000000000000000000000000000000000000000000000000000000000000 }, target := { x := 0, y := 0, z := 0 }, shake_intensity := 0, shake_duration := 0 }, obstacles := [{ position := { x := -60, y := 0, z := 4488 }, type := ObstacleType.barrier, lane := -1, size := 30, active := true }], collectibles := [{ position := { x := -60, y := 20, z := 4148 }, type := CollectibleType.gem, size := 15, active := true, rotation := 200 }], particles := [], score := 416, coins := 0, distance := 4160, speed_multiplier := 1, difficulty := 1, obstacle_spawn_timer := 76, collectible_spawn_timer := 41, high_score := 0 }

/-- The C3 fresh-run state after 540 ticks (computed literal). -/
def c3S540 : Game :=
  { state := GameState.PLAYING, player := { position := { x := 0, y := 0, z := 4320 }, velocity := { x := 0, y := 0, z := 8 }, state := PlayerState.RUNNING, lane := 0, jump_velocity := 0, slide_timer := 0, turn_timer := 0, invulnerable_timer := 0, size := 20, animation_frame := 2, animation_timer := 0 }, camera := { position := { x := 0, y := -50, z := (506000000000000000000000001758723662072907642251087898384906486257834475088448533468564680591460239097523929345694727305102674342721618828754226939228680478234403621178398346290949122064813518366742721621775185774282478732375428804953443340331734339828719125432665109414719062856046369215911651638191469679304562438042421261293052692169173782260880649844128885166937210692773189998267253859361627955766423745292476552044221352304704714146172298711012944287148339600456841093316330058538032667644230857279749527073776484653866423042744394658409 : Rat)/125000000000000000000000000000000000000000000000000000000000000000000000000000000000000000000000000000000000000000000000000000000000000000000000000000000000000000000000000000000000000000000000000000000000000000000000000000000000000000000000000000000000000000000000000000000000000000000000000000000000000000000000000000000000000000000000000000000000000000000000000000000000000000000000000000000000000000000000000000000000000000000000000000000000000000000000000000000000000000000000000000000000000000000000000000000000000000000000000000000000 }, target := { x := 0, y := 0, z := 0 }, shake_intensity := 0, shake_duration := 0 }, obstacles := [{ position := { x := -60, y := 0, z := 4488 }, type := ObstacleType.barrier, lane := -1, size := 30, active := true }], collectibles := [], particles := [], score := 432, coins := 0, distance := 4320, speed_multiplier := 1, difficulty := 1, obstacle_spawn_timer := 56, collectible_spawn_timer := 21, high_score := 0 }

/-- The C3 fresh-run state after 560 ticks (computed literal). -/
def c3S560 : Game :=
  { state := GameState.PLAYING, player := { position := { x := 0, y := 0, z := 4480 }, velocity := { x := 0, y := 0, z := 8 }, state := PlayerState.RUNNING, lane := 0, jump_velocity := 0, slide_timer := 0, turn_timer := 0, invulnerable_timer := 0, size := 20, animation_frame := 0, animation_timer := 0 }, camera := { position := { x := 0, y := -50, z := (52600000000000000000000000021381973918409899611265320154024170849922594928682008198773224023494737597704867810483104615882130053642533609719133905696007823215710198855103125646747937330608484602194762558889918779768706699011185013951838259245591570575086307065702376556222435887587318600318888355717146356598218812071367835798577152221794445076556508756116186485737977069583354493210202019168291854827606309945029619569232875859893670166934693059136901623366786558383423152263058568729021315585184722406839787082748575974319382516039994722982385413332105028937609 : Rat)/12500000000000000000000000000000000000000000000000000000000000000000000000000000000000000000000000000000000000000000000000000000000000000000000000000000000000000000000000000000000000000000000000000000000000000000000000000000000000000000000000000000000000000000000000000000000000000000000000000000000000000000000000000000000000000000000000000000000000000000000000000000000000000000000000000000000000000000000000000000000000000000000000000000000000000000000000000000000000000000000000000000000000000000000000000000000000000000000000000000000000000000000000000000 }, target := { x := 0, y := 0, z := 0 }, shake_intensity := 0, shake_duration := 0 }, obstacles := [{ position := { x := -60, y := 0, z := 4488 }, type := ObstacleType.barrier, lane := -1, size := 30, active := true }], collectibles := [], particles := [], score := 448, coins := 0, distance := 4480, speed_multiplier := 1, difficulty := 1, obstacle_spawn_timer := 36, collectible_spawn_timer := 1, high_score := 0 }

/-- The C3 fresh-run state after 580 ticks (computed literal). -/
def c3S580 : Game :=
  { state := GameState.PLAYING, player := { position := { x := 0, y := 0, z := 4640 }, velocity := { x := 0, y := 0, z := 8 }, state := PlayerState.RUNNING, lane := 0, jump_velocity := 0, slide_timer := 0, turn_timer := 0, invulnerable_timer := 0, size := 20, animation_frame := 2, animation_timer := 0 }, camera := { position := { x := 0, y := -50, z := (5460000000000000000000000000259954885754308170845726257532555922562468336559591063745078579121539305074447060296918357567907933745055383221408836097679629906513138986636998962542697027038257146321891301981752328733066728410789809028476071742418262459447066254005103970964565144831558602557904892178300807965405700229666736015878812422235473306687304920992533530680690895856733055078190997055710817233387661506582536483493977906120626761313766272343928815139847094132956855278441169621064776340275257949139846604372985960182136192064143366543843740772718885751775850559451019384176809 : Rat)/1250000000000000000000000000000000000000000000000000000000000000000000000000000000000000000000000000000000000000000000000000000000000000000000000000000000000000000000000000000000000000000000000000000000000000000000000000000000000000000000000000000000000000000000000000000000000000000000000000000000000000000000000000000000000000000000000000000000000000000000000000000000000000000000000000000000000000000000000000000000000000000000000000000000000000000000000000000000000000000000000000000000000000000000000000000000000000000000000000000000000000000000000000000000000000000000000000 }, target := { x := 0, y := 0, z := 0 }, shake_intensity := 0, shake_duration := 0 }, obstacles := [{ position := { x := -60, y := 0, z := 4488 }, type := ObstacleType.barrier, lane := -1, size := 30, active := true }], collectibles := [{ position := { x := -60, y := 20, z := 4788 }, type := CollectibleType.gem, size := 15, active := true, rotation := 100 }], particles := [], score := 464, coins := 0, distance := 4640, speed_multiplier := 1, difficulty := 1, obstacle_spawn_timer := 16, collectible_spawn_timer := 61, high_score := 0 }

/-- The C3 fresh-run state after 600 ticks (computed literal). -/
def c3S600 : Game :=
  { state := GameState.PLAYING, player := { position := { x := 0, y := 0, z := 4800 }, velocity := { x := 0, y := 0, z := 8 }, state := PlayerState.RUNNING, lane := 0, jump_velocity := 0, slide_timer := 0, turn_timer := 0, invulnerable_timer := 0, size := 20, animation_frame := 0, animation_timer := 0 }, camera := { position := { x := 0, y := -50, z := (566000000000000000000000000003160444535448242529092641683723644059539145692308657340859411006936058865374641314408196086827043799075550619379423798587542309132164609200204439951579781831500807632453119338125875367204968679095724562036128784121814572255501838157522005562307704591221323902634201333248104060896549891818729439534161465226719835137730531986768862453929457126667118122860406909711654476082395260883189301675745656233295957116371351513365076222859294597957033255348289403621311527049289776180957730267554140209309181978595028474886982653235278904914878205932888067162450567679909275108376009 : Rat)/125000000000000000000000000000000000000000000000000000000000000000000000000000000000000000000000000000000000000000000000000000000000000000000000000000000000000000000000000000000000000000000000000000000000000000000000000000000000000000000000000000000000000000000000000000000000000000000000000000000000000000000000000000000000000000000000000000000000000000000000000000000000000000000000000000000000000000000000000000000000000000000000000000000000000000000000000000000000000000000000000000000000000000000000000000000000000000000000000000000000000000000000000000000000000000000000000000000000000000000000 }, target := { x := 0, y := 0, z := 0 }, shake_intensity := 0, shake_duration := 0 }, obstacles := [{ position := { x := -60, y := 0, z := 5168 }, type := ObstacleType.barrier, lane := -1, size := 30, active := true }], collectibles := [{ position := { x := -60, y := 20, z := 4788 }, type := CollectibleType.gem, size := 15, active := true, rotation := 200 }], particles := [], score := 480, coins := 0, distance := 4800, speed_multiplier := 1, difficulty := 1, obstacle_spawn_timer := 81, collectible_spawn_timer := 41, high_score := 0 }

/-- The C3 fresh-run state after 620 ticks (computed literal). -/
def c3S620 : Game :=
  { state := GameState.PLAYING, player := { position := { x := 0, y := 0, z := 4960 }, velocity := { x := 0, y := 0, z := 8 }, state := PlayerState.RUNNING, lane := 0, jump_velocity := 0, slide_timer := 0, turn_timer := 0, invulnerable_timer := 0, size := 20, animation_frame := 2, animation_timer := 0 }, camera := { position := { x := 0, y := -50, z := (58600000000000000000000000000038423627363884319596234482854009001593246619313409941496460697358445906867347080317566083337150437930896913394491132736586414080361672212371224617074162353776913062119187781422985101518636208754749359450588018992336419603875217162021547073356878029346044712650747333756691828841894033191744825166668823872651803154279921349762543113119959038935138331526174951525746126929351678246274498346151705950857257794548372938827968402563964041415328503607829696049886633621834860825639465865672422081450974538397411915806587140567606899475471443298419559149578987812607740545278618073024272122249535209 : Rat)/12500000000000000000000000000000000000000000000000000000000000000000000000000000000000000000000000000000000000000000000000000000000000000000000000000000000000000000000000000000000000000000000000000000000000000000000000000000000000000000000000000000000000000000000000000000000000000000000000000000000000000000000000000000000000000000000000000000000000000000000000000000000000000000000000000000000000000000000000000000000000000000000000000000000000000000000000000000000000000000000000000000000000000000000000000000000000000000000000000000000000000000000000000000000000000000000000000000000000000000000000000000000000000000 }, target := { x := 0, y := 0, z := 0 }, shake_intensity := 0, shake_duration := 0 }, obstacles := [{ position := { x := -60, y := 0, z := 5168 }, type := ObstacleType.barrier, lane := -1, size := 30, active := true }], collectibles := [], particles := [], score := 496, coins := 0, distance := 4960, speed_multiplier := 1, difficulty := 1, obstacle_spawn_timer := 61, collectible_spawn_timer := 21, high_score := 0 }

/-- The C3 fresh-run state after 624 ticks (computed literal). -/
def c3S624 : Game :=
  { state := GameState.PLAYING, player := { position := { x := 0, y := 0, z := 4992 }, velocity := { x := 0, y := 0, z := 8 }, state := PlayerState.RUNNING, lane := 0, jump_velocity := 0, slide_timer := 0, turn_timer := 0, invulnerable_timer := 0, size := 20, animation_frame := 2, animation_timer := 4 }, camera := { position := { x := 0, y := -50, z := (590000000000000000000000000000252097419134445020870894442005153059453291069315282626158278635368763594956664193963551072775044023264614648781256321884743462781252931385367604712623579203130326600563991033916205251063772165639910547355307992608719249021025299800023370348294476750539399359701553256777655089031666751771037797918514153428468480495230563975792045365180051254453442593143233856960420338783476360973806983649101342743574468390031874851650300689222168075725970312170970635783306203192858521877020535544676761276399843946425419579607018229264068867458568139480930727580387739038519385717573013177112249394079200506249 : Rat)/125000000000000000000000000000000000000000000000000000000000000000000000000000000000000000000000000000000000000000000000000000000000000000000000000000000000000000000000000000000000000000000000000000000000000000000000000000000000000000000000000000000000000000000000000000000000000000000000000000000000000000000000000000000000000000000000000000000000000000000000000000000000000000000000000000000000000000000000000000000000000000000000000000000000000000000000000000000000000000000000000000000000000000000000000000000000000000000000000000000000000000000000000000000000000000000000000000000000000000000000000000000000000000000000 }, target := { x := 0, y := 0, z := 0 }, shake_intensity := 0, shake_duration := 0 }, obstacles := [{ position := { x := -60, y := 0, z := 5168 }, type := ObstacleType.barrier, lane := -1, size := 30, active := true }], collectibles := [], particles := [], score := 499, coins := 0, distance := 4992, speed_multiplier := 1, difficulty := 1, obstacle_spawn_timer := 57, collectible_spawn_timer := 17, high_score := 0 }

/-- The C3 fresh-run state after 625 ticks (computed literal). -/
def c3S625 : Game :=
  { state := GameState.PLAYING, player := { position := { x := 0, y := 0, z := 5000 }, velocity := { x := 0, y := 0, z := (17 : Rat)/2 }, state := PlayerState.RUNNING, lane := 0, jump_velocity := 0, slide_timer := 0, turn_timer := 0, invulnerable_timer := 0, size := 20, animation_frame := 2, animation_timer := 5 }, camera := { position := { x := 0, y := -50, z := (5910000000000000000000000000002268876772210005187838049978046377535079619623837543635424507718318872354609977745671959654975396209381531839031306896962691165031276382468308442413612212828172939405075919305245847259573949490759194926197771933478473241189227698200210333134650290754854594237313979310998895801285000765939340181266627380856216324457075075782128408286620461290080983338289104712643783049051287248764262852841912084692170215510286873664852706202999512681533732809538735722049755828735726696893184819902090851487598595517828776216463164063376619807127113255328376548223489651346674471458157118594010244546712804556241 : Rat)/1250000000000000000000000000000000000000000000000000000000000000000000000000000000000000000000000000000000000000000000000000000000000000000000000000000000000000000000000000000000000000000000000000000000000000000000000000000000000000000000000000000000000000000000000000000000000000000000000000000000000000000000000000000000000000000000000000000000000000000000000000000000000000000000000000000000000000000000000000000000000000000000000000000000000000000000000000000000000000000000000000000000000000000000000000000000000000000000000000000000000000000000000000000000000000000000000000000000000000000000000000000000000000000000000 }, target := { x := 0, y := 0, z := 0 }, shake_intensity := 0, shake_duration := 0 }, obstacles := [{ position := { x := -60, y := 0, z := 5168 }, type := ObstacleType.barrier, lane := -1, size := 30, active := true }], collectibles := [], particles := [], score := 500, coins := 0, distance := 5000, speed_multiplier := (11 : Rat)/10, difficulty := 2, obstacle_spawn_timer := 56, collectible_spawn_timer := 16, high_score := 0 }

/-- The C3 fresh-run state after 626 ticks (computed literal). -/
def c3S626 : Game :=
  { state := GameState.PLAYING, player := { position := { x := 0, y := 0, z := (10017 : Rat)/2 }, velocity := { x := 0, y := 0, z := 9 }, state := PlayerState.RUNNING, lane := 0, jump_velocity := 0, slide_timer := 0, turn_timer := 0, invulnerable_timer := 0, size := 20, animation_frame := 2, animation_timer := 6 }, camera := { position := { x := 0, y := -50, z := (59200625000000000000000000000020419890949890046690542449802417397815716576614537892718820569464869851191489799711047636894778565884433786551281762072664220485281487442214775981722509915453556454645683273747212625336165545416832754335779947401306259170703049283801892998211852616793691348135825813798990062211565006893454061631399646427705946920113675682039155674579584151610728850044601942413794047441461585238878365675577208762229531939592581862983674355826995614133803595285848621498447802458621540272038663379118817663388387359660458985948168476570389578264144019297955388934011406862120070243123414067346092200920415241006169 : Rat)/12500000000000000000000000000000000000000000000000000000000000000000000000000000000000000000000000000000000000000000000000000000000000000000000000000000000000000000000000000000000000000000000000000000000000000000000000000000000000000000000000000000000000000000000000000000000000000000000000000000000000000000000000000000000000000000000000000000000000000000000000000000000000000000000000000000000000000000000000000000000000000000000000000000000000000000000000000000000000000000000000000000000000000000000000000000000000000000000000000000000000000000000000000000000000000000000000000000000000000000000000000000000000000000000000 }, target := { x := 0, y := 0, z := 0 }, shake_intensity := 0, shake_duration := 0 }, obstacles := [{ position := { x := -60, y := 0, z := 5168 }, type := ObstacleType.barrier, lane := -1, size := 30, active := true }], collectibles := [], particles := [], score := 500, coins := 0, distance := (100187 : Rat)/20, speed_multiplier := (6 : Rat)/5, difficulty := 3, obstacle_spawn_timer := 55, collectible_spawn_timer := 15, high_score := 0 }

/-- The C3 fresh-run state after 627 ticks (computed literal). -/
def c3S627 : Game :=
  { state := GameState.PLAYING, player := { position := { x := 0, y := 0, z := (10035 : Rat)/2 }, velocity := { x := 0, y := 0, z := 9 }, state := PlayerState.RUNNING, lane := 0, jump_velocity := 0, slide_timer := 0, turn_timer := 0, invulnerable_timer := 0, size := 20, animation_frame := 2, animation_timer := 7 }, camera := { position := { x := 0, y := -50, z := (593024375000000000000000000000183779018549010420214882048221756580341449189530841034469385125183828660723408197399428732053007092959904078961535858653977984367533386979932983835502589239082008091811149463724913628025489908751494789022019526611756332536327443554217036983906673551143222133222432324190910559904085062041086554682596817849353522281023081138352401071216257364496559650401417481724146426973154267149905291080194878860065787456333236766853069202442960527204232357572637593486030222127593862448347970412069358970495486236944130873533516289133506204377296173681598500406102661759080632188110726606114829808283737169055521 : Rat)/125000000000000000000000000000000000000000000000000000000000000000000000000000000000000000000000000000000000000000000000000000000000000000000000000000000000000000000000000000000000000000000000000000000000000000000000000000000000000000000000000000000000000000000000000000000000000000000000000000000000000000000000000000000000000000000000000000000000000000000000000000000000000000000000000000000000000000000000000000000000000000000000000000000000000000000000000000000000000000000000000000000000000000000000000000000000000000000000000000000000000000000000000000000000000000000000000000000000000000000000000000000000000000000000000 }, target := { x := 0, y := 0, z := 0 }, shake_intensity := 0, shake_duration := 0 }, obstacles := [{ position := { x := -60, y := 0, z := 5168 }, type := ObstacleType.barrier, lane := -1, size := 30, active := true }], collectibles := [], particles := [], score := 502, coins := 0, distance := (100403 : Rat)/20, speed_multiplier := (6 : Rat)/5, difficulty := 3, obstacle_spawn_timer := 54, collectible_spawn_timer := 14, high_score := 0 }

/-- C4 counterexample: with the player mid-jump (state JUMPING, not
RUNNING), move_left is not a no-op: it commits the lane change and
overwrites the state with TURNING_LEFT, refuting the claim that every
action is guarded on the Running state. -/
theorem c4_move_left_unguarded :
    pJump.move_left ≠ pJump ∧ pJump.move_left.lane = -1 ∧
    pJump.move_left.state = PlayerState.TURNING_LEFT := by
  decide

/-- C4 amended: jump() and slide() are guarded on RUNNING and are complete
no-ops from any other state; move_left()/move_right() are guarded only by
the lane bound: at the bound they are complete no-ops, but at an interior
lane they take effect in every state, committing the lane change and
overwriting the state with the turning state. -/
theorem c4_action_guards :
    (∀ p : Player, p.state ≠ PlayerState.RUNNING → p.jump = p ∧ p.slide = p)
    ∧ (∀ p : Player, p.lane ≤ -1 → p.move_left = p)
    ∧ (∀ p : Player, 1 ≤ p.lane → p.move_right = p)
    ∧ (∀ p : Player, -1 < p.lane →
        p.move_left.state = PlayerState.TURNING_LEFT ∧ p.move_left.lane = p.lane - 1)
    ∧ (∀ p : Player, p.lane < 1 →
        p.move_right.state = PlayerState.TURNING_RIGHT ∧ p.move_right.lane = p.lane + 1) := by
  refine ⟨fun p h => ⟨?_, ?_⟩, fun p h => ?_, fun p h => ?_, fun p h => ⟨?_, ?_⟩,
    fun p h => ⟨?_, ?_⟩⟩
  · simp [Player.jump, h]
  · simp [Player.slide, h]
  · simp [Player.move_left, show ¬ p.lane > -1 by omega]
  · simp [Player.move_right, show ¬ p.lane < 1 by omega]
  · simp [Player.move_left, h]
  · simp [Player.move_left, h]
  · simp [Player.move_right, h]
  · simp [Player.move_right, h]

/-- C4 witness: the amended guard facts instantiated at the mid-jump player. -/
theorem c4_action_guards_w :
    pJump.state ≠ PlayerState.RUNNING ∧ (pJump.jump = pJump ∧ pJump.slide = pJump) :=
  ⟨by decide, c4_action_guards.1 pJump (by decide)⟩

set_option maxRecDepth 10000 in
unseal Rat.add Rat.mul Rat.inv Rat.sub Rat.ofScientific in
/-- C6 counterexample: fifteen and sixteen ticks after jump() the height is
the same 144 (the tick-16 increment is the jump velocity 18 - 15*1.2 = 0),
while the jump is still in flight, so position.y does not strictly increase
then strictly decrease with a single apex. -/
theorem c6_apex_plateau :
    (jumpTrace 16).position.y = (jumpTrace 15).position.y ∧
    (jumpTrace 15).position.y = 144 ∧
    (jumpTrace 16).state = PlayerState.JUMPING := by
  decide

set_option maxRecDepth 100000 in
unseal Rat.add Rat.mul Rat.inv Rat.sub Rat.ofScientific in
/-- C6 amended: after jump() the height climbs strictly for 15 ticks, stays
at the apex 144 for one tick, then falls strictly for 15 ticks, landing at
exactly 0 on tick 31; the state is JUMPING with positive height on ticks
1..30 and returns to RUNNING exactly on tick 31, the first tick the height
reaches <= 0. -/
theorem c6_jump_parabola :
    (∀ k : Fin 15, (jumpTrace k.val).position.y < (jumpTrace (k.val + 1)).position.y)
    ∧ (jumpTrace 16).position.y = (jumpTrace 15).position.y
    ∧ (∀ k : Fin 15,
        (jumpTrace (17 + k.val)).position.y < (jumpTrace (16 + k.val)).position.y)
    ∧ (jumpTrace 31).position.y = 0
    ∧ (∀ k : Fin 30, (jumpTrace (k.val + 1)).state = PlayerState.JUMPING ∧
        0 < (jumpTrace (k.val + 1)).position.y)
    ∧ (jumpTrace 31).state = PlayerState.RUNNING := by
  decide

unseal Rat.add Rat.mul Rat.inv Rat.sub Rat.ofScientific in
/-- C7 counterexample: for a point 0.05 in front of the camera the source
divides by rel_z = 1/20, not by the claimed minimum 0.1: its projection
differs from the always-clamped projection the claim describes (x offset
1000 * 500 / (1/20) = 10^7 versus 5 * 10^6). -/
theorem c7_no_min_clamp_above_zero :
    Camera.project_3d_to_2d camC7 ptC7 ≠ project_3d_to_2d_minClamp camC7 ptC7 ∧
    Camera.project_3d_to_2d camC7 ptC7 = (10000600, 1000400) := by
  decide

/-- C7 amended: the clamp fires exactly on rel_z <= 0: for any point at or
behind the camera plane the projection behaves exactly as if rel_z were
0.1, i.e. it equals the projection of the same x/y at the depth
camera.z + 0.1; for 0 < rel_z the divisor is rel_z itself, which can be
smaller than 0.1. -/
theorem c7_clamp_iff_nonpos (c : Camera) (p : Vector3)
    (h : p.z - c.position.z ≤ 0) :
    c.project_3d_to_2d p = c.project_3d_to_2d ⟨p.x, p.y, c.position.z + 1/10⟩ := by
  simp only [Camera.project_3d_to_2d]
  rw [if_pos h, if_neg (by push_neg; linarith), show c.position.z + 1/10 - c.position.z = 1/10 by ring]

unseal Rat.add Rat.mul Rat.inv Rat.sub Rat.ofScientific in
/-- C7 witness: the clamp equivalence at a point 50 units behind the camera. -/
theorem c7_clamp_iff_nonpos_w :
    ptBehind.z - camC7.position.z ≤ 0 ∧
    camC7.project_3d_to_2d ptBehind =
      camC7.project_3d_to_2d ⟨ptBehind.x, ptBehind.y, camC7.position.z + 1/10⟩ :=
  ⟨by decide, c7_clamp_iff_nonpos camC7 ptBehind (by decide)⟩

/-- Player.update never changes the lane. -/
theorem stepPosition_lane (p : Player) : p.stepPosition.lane = p.lane := rfl

theorem stepJump_lane (p : Player) : p.stepJump.lane = p.lane := by
  simp only [Player.stepJump]; split_ifs <;> rfl

theorem stepSlide_lane (p : Player) : p.stepSlide.lane = p.lane := by
  simp only [Player.stepSlide]; split_ifs <;> rfl

theorem stepTurn_lane (p : Player) : p.stepTurn.lane = p.lane := by
  simp only [Player.stepTurn]; split_ifs <;> rfl

theorem stepLaneX_lane (p : Player) : p.stepLaneX.lane = p.lane := rfl

theorem stepInvuln_lane (p : Player) : p.stepInvuln.lane = p.lane := by
  simp only [Player.stepInvuln]; split_ifs <;> rfl

theorem stepAnim_lane (p : Player) : p.stepAnim.lane = p.lane := by
  simp only [Player.stepAnim]; split_ifs <;> rfl

/-- Player.update never changes the lane. -/
theorem Player.update_lane (p : Player) : p.update.lane = p.lane := by
  simp only [Player.update, stepAnim_lane, stepInvuln_lane, stepLaneX_lane,
    stepTurn_lane, stepSlide_lane, stepJump_lane, stepPosition_lane]

theorem stepPosition_velocity (p : Player) : p.stepPosition.velocity = p.velocity := rfl

theorem stepJump_velocity (p : Player) : p.stepJump.velocity = p.velocity := by
  simp only [Player.stepJump]; split_ifs <;> rfl

theorem stepSlide_velocity (p : Player) : p.stepSlide.velocity = p.velocity := by
  simp only [Player.stepSlide]; split_ifs <;> rfl

theorem stepTurn_velocity (p : Player) : p.stepTurn.velocity = p.velocity := by
  simp only [Player.stepTurn]; split_ifs <;> rfl

theorem stepLaneX_velocity (p : Player) : p.stepLaneX.velocity = p.velocity := rfl

theorem stepInvuln_velocity (p : Player) : p.stepInvuln.velocity = p.velocity := by
  simp only [Player.stepInvuln]; split_ifs <;> rfl

theorem stepAnim_velocity (p : Player) : p.stepAnim.velocity = p.velocity := by
  simp only [Player.stepAnim]; split_ifs <;> rfl

/-- Player.update never changes the velocity. -/
theorem Player.update_velocity (p : Player) : p.update.velocity = p.velocity := by
  simp only [Player.update, stepAnim_velocity, stepInvuln_velocity, stepLaneX_velocity,
    stepTurn_velocity, stepSlide_velocity, stepJump_velocity, stepPosition_velocity]

/-- One action keeps the lane within the bounds. -/
theorem applyAct_lane_bound (a : Act) (p : Player) (h1 : -1 ≤ p.lane)
    (h2 : p.lane ≤ 1) : -1 ≤ (applyAct a p).lane ∧ (applyAct a p).lane ≤ 1 := by
  cases a with
  | left =>
      simp only [applyAct, Player.move_left]
      split <;> (try dsimp only []) <;> omega
  | right =>
      simp only [applyAct, Player.move_right]
      split <;> (try dsimp only []) <;> omega
  | tick =>
      simp only [applyAct]
      rw [Player.update_lane]
      exact ⟨h1, h2⟩

/-- Any action sequence keeps the lane within the bounds. -/
theorem applyActs_lane_bound (acts : List Act) (p : Player) (h1 : -1 ≤ p.lane)
    (h2 : p.lane ≤ 1) : -1 ≤ (applyActs acts p).lane ∧ (applyActs acts p).lane ≤ 1 := by
  induction acts generalizing p with
  | nil => exact ⟨h1, h2⟩
  | cons a rest ih =>
      have h := applyAct_lane_bound a p h1 h2
      exact ih (applyAct a p) h.1 h.2

/-- C8: from the initial lane 0, any interleaving of move_left, move_right
and update ticks keeps the lane in [-1, 1], and the moves at the bounds are
complete no-ops. -/
theorem c8_lane_always_bounded :
    (∀ acts : List Act, -1 ≤ (applyActs acts Player.init).lane ∧
      (applyActs acts Player.init).lane ≤ 1)
    ∧ (∀ p : Player, p.lane = -1 → p.move_left = p)
    ∧ (∀ p : Player, p.lane = 1 → p.move_right = p) := by
  refine ⟨fun acts => applyActs_lane_bound acts Player.init (by decide) (by decide),
    fun p h => ?_, fun p h => ?_⟩
  · simp [Player.move_left, h]
  · simp [Player.move_right, h]

/-- C8 witness: the bound and the no-op moves at concrete players. -/
theorem c8_lane_always_bounded_w :
    (-1 ≤ (applyActs [Act.left, Act.left, Act.tick] Player.init).lane ∧
      (applyActs [Act.left, Act.left, Act.tick] Player.init).lane ≤ 1)
    ∧ (pLaneL.lane = -1 ∧ pLaneL.move_left = pLaneL)
    ∧ (pLaneR.lane = 1 ∧ pLaneR.move_right = pLaneR) :=
  ⟨c8_lane_always_bounded.1 [Act.left, Act.left, Act.tick],
   ⟨by decide, c8_lane_always_bounded.2.1 pLaneL (by decide)⟩,
   ⟨by decide, c8_lane_always_bounded.2.2 pLaneR (by decide)⟩⟩

set_option maxRecDepth 10000 in
unseal Rat.add Rat.mul Rat.inv Rat.sub Rat.ofScientific in
/-- C1 counterexample: in a Playing run that picks up a powerup (+100) one
tick, the next tick's score is lower, because update_game reassigns
score = int(distance/10), discarding the bonus: the score is not
non-decreasing from one tick to the next. -/
theorem c1_score_drops_after_bonus :
    (update_game env0 (update_game env0 gBonus)).score <
      (update_game env0 gBonus).score := by
  decide

set_option maxRecDepth 10000 in
unseal Rat.add Rat.mul Rat.inv Rat.sub Rat.ofScientific in
/-- C2 counterexample: the tick that collects the powerup ends with score
110 = int(108/10) + 100, but the next tick's score is the bare distance
term 11 = int(116/10): the +100 bonus from the earlier tick is not included
in any later tick's score. -/
theorem c2_bonus_overwritten_next_tick :
    (update_game env0 gBonus).score = 110 ∧
    (update_game env0 (update_game env0 gBonus)).score = 11 ∧
    pyInt ((update_game env0 (update_game env0 gBonus)).distance / 10) = 11 := by
  decide

/-- collect_item changes only coins, score, particles and (for powerups)
the invulnerability timer; distance, state, camera and the collectible
list are untouched, and the score gains exactly bonusOf. -/
theorem collect_item_fields (env : Env) (c : Collectible) (g : Game) :
    (Game.collect_item env c g).distance = g.distance ∧
    (Game.collect_item env c g).state = g.state ∧
    (Game.collect_item env c g).camera = g.camera ∧
    (Game.collect_item env c g).collectibles = g.collectibles ∧
    (Game.collect_item env c g).score = g.score + bonusOf c.type := by
  rcases c with ⟨pos, ty, size, act, rot⟩
  cases ty <;> exact ⟨rfl, rfl, rfl, rfl, rfl⟩

/-- Every per-type score bonus is nonnegative. -/
theorem bonusOf_nonneg (t : CollectibleType) : 0 ≤ bonusOf t := by
  cases t <;> decide

/-- The total tick bonus is nonnegative. -/
theorem bonusTotal_nonneg (pr : Rect) (cam : Camera) (cs : List Collectible) :
    0 ≤ bonusTotal pr cam cs := by
  induction cs with
  | nil => simp [bonusTotal]
  | cons c rest ih =>
      have hb := bonusOf_nonneg c.type
      by_cases hc : (c.active && colliderect pr (c.get_collision_rect cam)) = true
      · simp only [bonusTotal, List.filter_cons, hc, if_true, List.foldr_cons] at ih ⊢
        omega
      · simp only [bonusTotal, List.filter_cons, hc] at ih ⊢
        simpa using ih

/-- The collectible loop: distance, state and camera are preserved, and
the final score is the entry score plus the total bonus of the overlapped
active collectibles. -/
theorem collectLoop_fields (env : Env) (pr : Rect) :
    ∀ (cs : List Collectible) (g : Game),
      (collectLoop env pr g cs).distance = g.distance ∧
      (collectLoop env pr g cs).state = g.state ∧
      (collectLoop env pr g cs).camera = g.camera ∧
      (collectLoop env pr g cs).score = g.score + bonusTotal pr g.camera cs := by
  intro cs
  induction cs with
  | nil =>
      intro g
      exact ⟨rfl, rfl, rfl, by simp [collectLoop, bonusTotal]⟩
  | cons c rest ih =>
      intro g
      by_cases hc : (c.active && colliderect pr (c.get_collision_rect g.camera)) = true
      · have hstep : collectLoop env pr g (c :: rest) =
            collectLoop env pr (Game.collect_item env c g) rest := by
          simp only [collectLoop, hc, if_true]
        obtain ⟨hd, hs, hcam, hcols, hscore⟩ :=
          (fun h => ⟨h.1, h.2.1, h.2.2.1, h.2.2.2.1, h.2.2.2.2⟩ :
            _ → _ ∧ _ ∧ _ ∧ _ ∧ _) (collect_item_fields env c g)
        obtain ⟨ihd, ihs, ihcam, ihscore⟩ := ih (Game.collect_item env c g)
        refine ⟨hstep ▸ (ihd.trans hd), hstep ▸ (ihs.trans hs), hstep ▸ (ihcam.trans hcam), ?_⟩
        rw [hstep, ihscore, hscore, hcam]
        simp only [bonusTotal, List.filter_cons, hc, if_true, List.foldr_cons]
        omega
      · have hstep : collectLoop env pr g (c :: rest) =
            collectLoop env pr { g with collectibles := g.collectibles ++ [c] } rest := by
          simp only [collectLoop, hc, if_false]
          rfl
        obtain ⟨ihd, ihs, ihcam, ihscore⟩ :=
          ih { g with collectibles := g.collectibles ++ [c] }
        refine ⟨hstep ▸ ihd, hstep ▸ ihs, hstep ▸ ihcam, ?_⟩
        rw [hstep, ihscore]
        simp [bonusTotal, List.filter_cons, hc]

/-- game_over: sets GAME_OVER, leaves score, coins, the collectible list,
distance and the player untouched, and appends exactly the 20-particle
explosion burst. -/
theorem game_over_fields (env : Env) (g : Game) :
    (Game.game_over env g).state = GameState.GAME_OVER ∧
    (Game.game_over env g).score = g.score ∧
    (Game.game_over env g).coins = g.coins ∧
    (Game.game_over env g).collectibles = g.collectibles ∧
    (Game.game_over env g).distance = g.distance ∧
    (Game.game_over env g).player = g.player ∧
    (Game.game_over env g).particles =
      addBurst g.particles env.explVels 20 g.player.position RED 60 := by
  simp only [Game.game_over]
  split_ifs <;> exact ⟨rfl, rfl, rfl, rfl, rfl, rfl, rfl⟩

/-- The avoidance test canAvoid is false exactly when the pairing is
neither barrier-while-SLIDING nor gap-while-JUMPING. -/
theorem canAvoid_eq_false_iff (o : Obstacle) (st : PlayerState) :
    canAvoid o st = false ↔
      ¬((o.type = ObstacleType.barrier ∧ st = PlayerState.SLIDING) ∨
        (o.type = ObstacleType.gap ∧ st = PlayerState.JUMPING)) := by
  unfold canAvoid
  split_ifs with h1 h2 <;> simp_all

/-- The obstacle loop fires exactly when some active, lane-matching,
overlapping obstacle meets an uninvulnerable player with no avoidance. -/
theorem hasFatal_iff (g : Game) :
    hasFatal g = true ↔
      ∃ o ∈ g.obstacles, o.active = true ∧
        |(o.lane : ℚ) - (g.player.lane : ℚ)| < 1/2 ∧
        colliderect (g.player.get_collision_rect g.camera)
          (o.get_collision_rect g.camera) = true ∧
        g.player.invulnerable_timer ≤ 0 ∧
        ¬((o.type = ObstacleType.barrier ∧ g.player.state = PlayerState.SLIDING) ∨
          (o.type = ObstacleType.gap ∧ g.player.state = PlayerState.JUMPING)) := by
  simp only [hasFatal, List.any_eq_true, fatalHit, Bool.and_eq_true,
    decide_eq_true_eq, Bool.not_eq_true', canAvoid_eq_false_iff]
  constructor
  · rintro ⟨o, ho, h⟩
    exact ⟨o, ho, by tauto⟩
  · rintro ⟨o, ho, h⟩
    exact ⟨o, ho, by tauto⟩

/-- C5: check_collisions ends the run exactly when the run was already
over or some active obstacle in the player's lane overlaps the player
while invulnerable_timer <= 0 and the pairing is neither barrier-SLIDING
nor gap-JUMPING (so boulders, moving barriers and spike traps always kill
on overlap, and nothing kills while invulnerable). -/
theorem c5_collision_rules (env : Env) (g : Game) :
    (Game.check_collisions env g).state = GameState.GAME_OVER ↔
      (g.state = GameState.GAME_OVER ∨
        ∃ o ∈ g.obstacles, o.active = true ∧
          |(o.lane : ℚ) - (g.player.lane : ℚ)| < 1/2 ∧
          colliderect (g.player.get_collision_rect g.camera)
            (o.get_collision_rect g.camera) = true ∧
          g.player.invulnerable_timer ≤ 0 ∧
          ¬((o.type = ObstacleType.barrier ∧ g.player.state = PlayerState.SLIDING) ∨
            (o.type = ObstacleType.gap ∧ g.player.state = PlayerState.JUMPING))) := by
  by_cases hf : hasFatal g = true
  · have hgo : Game.check_collisions env g = Game.game_over env g := by
      simp only [Game.check_collisions, hf, if_true]
    rw [hgo]
    simp only [(game_over_fields env g).1, true_iff]
    exact Or.inr (hasFatal_iff g |>.mp hf)
  · have hcl : Game.check_collisions env g =
        collectLoop env (g.player.get_collision_rect g.camera)
          { g with collectibles := [] } g.collectibles := by
      simp only [Game.check_collisions]
      rw [if_neg hf]
    rw [hcl, (collectLoop_fields env _ g.collectibles _).2.1]
    constructor
    · intro h; exact Or.inl h
    · rintro (h | hx)
      · exact h
      · exact absurd (hasFatal_iff g |>.mpr hx) hf

/-- C9: on a tick whose obstacle loop finds a fatal hit, check_collisions
returns from game_over before the collectible loop runs: coins, the
collectible list (hence every active flag), the score, and the whole
player are unchanged, and the only particles added are the red game-over
burst, never pickup particles, even if a collectible overlaps the player. -/
theorem c9_fatal_skips_collect (env : Env) (g : Game) (h : hasFatal g = true) :
    (Game.check_collisions env g).coins = g.coins ∧
    (Game.check_collisions env g).collectibles = g.collectibles ∧
    (Game.check_collisions env g).score = g.score ∧
    (Game.check_collisions env g).player = g.player ∧
    (Game.check_collisions env g).particles =
      addBurst g.particles env.explVels 20 g.player.position RED 60 := by
  have hgo : Game.check_collisions env g = Game.game_over env g := by
    simp only [Game.check_collisions, h, if_true]
  rw [hgo]
  obtain ⟨_, h2, h3, h4, _, h6, h7⟩ := game_over_fields env g
  exact ⟨h3, h4, h2, h6, h7⟩

set_option maxRecDepth 10000 in
unseal Rat.add Rat.mul Rat.inv Rat.sub Rat.ofScientific in
/-- C9 witness: at a state where a boulder and a coin both overlap the
player, the fatal return leaves coins, collectibles, score and player
unchanged. -/
theorem c9_fatal_skips_collect_w :
    hasFatal gFatal = true ∧
    ((Game.check_collisions env0 gFatal).coins = gFatal.coins ∧
     (Game.check_collisions env0 gFatal).collectibles = gFatal.collectibles ∧
     (Game.check_collisions env0 gFatal).score = gFatal.score ∧
     (Game.check_collisions env0 gFatal).player = gFatal.player ∧
     (Game.check_collisions env0 gFatal).particles =
       addBurst gFatal.particles env0.explVels 20 gFatal.player.position RED 60) :=
  ⟨by decide, c9_fatal_skips_collect env0 gFatal (by decide)⟩

/-- Python int() truncation is monotone. -/
theorem pyInt_mono {a b : ℚ} (h : a ≤ b) : pyInt a ≤ pyInt b := by
  unfold pyInt
  split_ifs with h1 h2
  · exact Int.ceil_mono h
  · have h3 : (⌈a⌉ : ℤ) ≤ 0 := Int.ceil_le.mpr (by exact_mod_cast h1.le)
    have h4 : (0 : ℤ) ≤ ⌊b⌋ := Int.floor_nonneg.mpr (not_lt.mp h2)
    omega
  · exact absurd (h.trans_lt (by assumption)) h1
  · exact Int.floor_mono h

theorem stepPlayerCam_fields (env : Env) (g : Game) :
    (Game.stepPlayerCam env g).distance = g.distance ∧
    (Game.stepPlayerCam env g).speed_multiplier = g.speed_multiplier ∧
    (Game.stepPlayerCam env g).player.velocity = g.player.velocity ∧
    (Game.stepPlayerCam env g).score = g.score :=
  ⟨rfl, rfl, Player.update_velocity g.player, rfl⟩

theorem stepScore_fields (g : Game) :
    (Game.stepScore g).distance = g.distance + g.player.velocity.z * g.speed_multiplier ∧
    (Game.stepScore g).score = pyInt ((Game.stepScore g).distance / 10) :=
  ⟨rfl, rfl⟩

theorem stepDifficulty_ds (g : Game) :
    (Game.stepDifficulty g).distance = g.distance ∧
    (Game.stepDifficulty g).score = g.score := by
  unfold Game.stepDifficulty
  split_ifs <;> exact ⟨rfl, rfl⟩

theorem stepObstacleSpawn_ds (env : Env) (g : Game) :
    (Game.stepObstacleSpawn env g).distance = g.distance ∧
    (Game.stepObstacleSpawn env g).score = g.score := by
  simp only [Game.stepObstacleSpawn]
  split_ifs <;> exact ⟨rfl, rfl⟩

theorem stepCollectibleSpawn_ds (env : Env) (g : Game) :
    (Game.stepCollectibleSpawn env g).distance = g.distance ∧
    (Game.stepCollectibleSpawn env g).score = g.score := by
  simp only [Game.stepCollectibleSpawn]
  split_ifs <;> exact ⟨rfl, rfl⟩

theorem stepEntities_ds (g : Game) :
    (Game.stepEntities g).distance = g.distance ∧
    (Game.stepEntities g).score = g.score :=
  ⟨rfl, rfl⟩

theorem stepParticles_ds (g : Game) :
    (Game.stepParticles g).distance = g.distance ∧
    (Game.stepParticles g).score = g.score :=
  ⟨rfl, rfl⟩

/-- Through the pre-collision pipeline, the tick adds exactly
velocity.z * speed_multiplier to distance, and the score is exactly the
truncated tenth of the new distance. -/
theorem preCollide_ds (env : Env) (g : Game) :
    (preCollide env g).distance = g.distance + g.player.velocity.z * g.speed_multiplier ∧
    (preCollide env g).score = pyInt ((preCollide env g).distance / 10) := by
  have h1 := stepPlayerCam_fields env g
  have h2 := stepScore_fields (Game.stepPlayerCam env g)
  have h3 := stepDifficulty_ds (Game.stepScore (Game.stepPlayerCam env g))
  have h4 := stepObstacleSpawn_ds env
    (Game.stepDifficulty (Game.stepScore (Game.stepPlayerCam env g)))
  have h5 := stepCollectibleSpawn_ds env (Game.stepObstacleSpawn env
    (Game.stepDifficulty (Game.stepScore (Game.stepPlayerCam env g))))
  have h6 := stepEntities_ds (Game.stepCollectibleSpawn env (Game.stepObstacleSpawn env
    (Game.stepDifficulty (Game.stepScore (Game.stepPlayerCam env g)))))
  have h7 := stepParticles_ds (Game.stepEntities (Game.stepCollectibleSpawn env
    (Game.stepObstacleSpawn env (Game.stepDifficulty (Game.stepScore
      (Game.stepPlayerCam env g))))))
  unfold preCollide
  constructor
  · rw [h7.1, h6.1, h5.1, h4.1, h3.1, h2.1, h1.1, h1.2.2.1, h1.2.1]
  · rw [h7.2, h6.2, h5.2, h4.2, h3.2, h2.2, h7.1, h6.1, h5.1, h4.1, h3.1]

/-- check_collisions never changes the distance. -/
theorem check_collisions_distance (env : Env) (g : Game) :
    (Game.check_collisions env g).distance = g.distance := by
  simp only [Game.check_collisions]
  split_ifs with h
  · exact (game_over_fields env g).2.2.2.2.1
  · exact (collectLoop_fields env _ g.collectibles _).1

/-- check_collisions never lowers the score. -/
theorem check_collisions_score_ge (env : Env) (g : Game) :
    g.score ≤ (Game.check_collisions env g).score := by
  simp only [Game.check_collisions]
  split_ifs with h
  · rw [(game_over_fields env g).2.1]
  · rw [(collectLoop_fields env (g.player.get_collision_rect g.camera)
      g.collectibles { g with collectibles := [] }).2.2.2]
    show g.score ≤ g.score +
      bonusTotal (g.player.get_collision_rect g.camera) g.camera g.collectibles
    have hb := bonusTotal_nonneg (g.player.get_collision_rect g.camera)
      g.camera g.collectibles
    omega

/-- C1 amended: while Playing the distance-derived baseline
int(distance/10) is non-decreasing from tick to tick whenever the forward
velocity and the speed multiplier are nonnegative, and the tick's final
score never falls below that baseline; but the full score itself can drop
on the tick after an item bonus (see the counterexample), because
update_game reassigns score = int(distance/10) before re-adding only the
current tick's bonuses. -/
theorem c1_baseline_monotone (env : Env) (g : Game)
    (hv : 0 ≤ g.player.velocity.z) (hm : 0 ≤ g.speed_multiplier) :
    pyInt (g.distance / 10) ≤ pyInt ((update_game env g).distance / 10) ∧
    pyInt ((update_game env g).distance / 10) ≤ (update_game env g).score := by
  have hd : (update_game env g).distance =
      g.distance + g.player.velocity.z * g.speed_multiplier := by
    unfold update_game
    rw [check_collisions_distance, (preCollide_ds env g).1]
  constructor
  · rw [hd]
    apply pyInt_mono
    have hle : g.distance ≤ g.distance + g.player.velocity.z * g.speed_multiplier :=
      le_add_of_nonneg_right (mul_nonneg hv hm)
    linarith
  · unfold update_game
    calc pyInt ((Game.check_collisions env (preCollide env g)).distance / 10)
        = pyInt ((preCollide env g).distance / 10) := by
          rw [check_collisions_distance]
      _ = (preCollide env g).score := ((preCollide_ds env g).2).symm
      _ ≤ (Game.check_collisions env (preCollide env g)).score :=
          check_collisions_score_ge env _

set_option maxRecDepth 10000 in
unseal Rat.add Rat.mul Rat.inv Rat.sub Rat.ofScientific in
/-- C1 witness: the baseline monotonicity at the powerup scenario state. -/
theorem c1_baseline_monotone_w :
    (0 ≤ gBonus.player.velocity.z ∧ 0 ≤ gBonus.speed_multiplier) ∧
    (pyInt (gBonus.distance / 10) ≤ pyInt ((update_game env0 gBonus).distance / 10) ∧
     pyInt ((update_game env0 gBonus).distance / 10) ≤ (update_game env0 gBonus).score) :=
  ⟨⟨by decide, by decide⟩, c1_baseline_monotone env0 gBonus (by decide) (by decide)⟩

/-- C2 amended: each tick recomputes score = int(distance/10) and then adds
the bonuses of exactly the collectibles picked up that tick (when no fatal
obstacle hit cuts the phase short), but the bonuses do not persist: the
next tick's recompute overwrites them, so no earlier tick's bonus is
included later (see the counterexample). -/
theorem c2_score_is_baseline_plus_tick_bonus (env : Env) (g : Game)
    (h : hasFatal (preCollide env g) = false) :
    (update_game env g).score =
      pyInt ((update_game env g).distance / 10) + tickBonus env g := by
  unfold update_game
  have hcl : Game.check_collisions env (preCollide env g) =
      collectLoop env ((preCollide env g).player.get_collision_rect
        (preCollide env g).camera)
        { preCollide env g with collectibles := [] } (preCollide env g).collectibles := by
    simp only [Game.check_collisions]
    rw [if_neg (by simp [h])]
  rw [check_collisions_distance]
  rw [hcl, (collectLoop_fields env _ _ _).2.2.2]
  show (preCollide env g).score +
      bonusTotal ((preCollide env g).player.get_collision_rect (preCollide env g).camera)
        (preCollide env g).camera (preCollide env g).collectibles = _
  rw [(preCollide_ds env g).2]
  rfl

set_option maxRecDepth 10000 in
unseal Rat.add Rat.mul Rat.inv Rat.sub Rat.ofScientific in
/-- C2 witness: the within-tick accounting at the powerup scenario state
(score 110 = 10 + 100 on the pickup tick). -/
theorem c2_score_is_baseline_plus_tick_bonus_w :
    hasFatal (preCollide env0 gBonus) = false ∧
    (update_game env0 gBonus).score =
      pyInt ((update_game env0 gBonus).distance / 10) + tickBonus env0 gBonus :=
  ⟨by decide, c2_score_is_baseline_plus_tick_bonus env0 gBonus (by decide)⟩

/-- n+1 iterated particle updates keep exactly the particles whose initial
life exceeds n+1, each advanced n+1 times. -/
theorem particlesUpdate_iter (n : ℕ) (ps : List Particle) :
    particlesUpdate^[n+1] ps =
      (ps.filter fun p => decide ((n : ℤ) + 1 < p.life)).map (Particle.advanceN (n+1)) := by
  induction n generalizing ps with
  | zero =>
      show particlesUpdate ps = _
      unfold particlesUpdate
      rw [List.filter_map]
      have hpred : ∀ p ∈ ps,
          ((fun q => !(q.life ≤ 0 : Bool)) ∘ Particle.step) p
            = decide ((0 : ℤ) + 1 < p.life) := by
        intro p _
        show (!(decide (p.step.life ≤ 0))) = decide ((0 : ℤ) + 1 < p.life)
        have hl : p.step.life = p.life - 1 := rfl
        rw [hl, ← decide_not, decide_eq_decide]
        omega
      rw [List.filter_congr hpred]
      rfl
  | succ m ih =>
      rw [show m + 1 + 1 = (m + 1) + 1 from rfl, Function.iterate_succ_apply, ih]
      unfold particlesUpdate
      rw [List.filter_filter, List.filter_map, List.map_map]
      have hpred : ∀ p ∈ ps,
          ((fun a => decide ((m : ℤ) + 1 < a.life) && !(a.life ≤ 0 : Bool)) ∘
            Particle.step) p
            = decide (((m : ℕ) + 1 : ℤ) + 1 < p.life) := by
        intro p _
        show (decide ((m : ℤ) + 1 < p.step.life) && !(decide (p.step.life ≤ 0)))
            = decide (((m : ℕ) + 1 : ℤ) + 1 < p.life)
        have hl : p.step.life = p.life - 1 := rfl
        rw [hl, ← decide_not, ← Bool.decide_and, decide_eq_decide]
        omega
      rw [List.filter_congr hpred]
      rfl

/-- C10: after every ParticleSystem.update each remaining particle has
life >= 1; n+1 updates keep exactly the particles with initial life > n+1,
each with life reduced by exactly 1 per update (advanceN); and a particle
added with life L > 0 is still present (life L - n) after any n < L
updates but is removed by exactly the L-th update. -/
theorem c10_particle_lifetimes :
    (∀ (ps : List Particle) (p : Particle), p ∈ particlesUpdate ps → 1 ≤ p.life)
    ∧ (∀ (n : ℕ) (ps : List Particle), particlesUpdate^[n+1] ps =
        (ps.filter fun p => decide ((n : ℤ) + 1 < p.life)).map (Particle.advanceN (n+1)))
    ∧ (∀ (ps : List Particle) (pos vel : Vector3) (col : Color) (L : ℤ), 0 < L →
        (∀ n : ℕ, (n : ℤ) < L →
          particlesUpdate^[n] (add_particle ps pos vel col L) =
            particlesUpdate^[n] ps ++ [Particle.advanceN n (mkParticle pos vel col L)])
        ∧ particlesUpdate^[Int.toNat L] (add_particle ps pos vel col L) =
            particlesUpdate^[Int.toNat L] ps) := by
  have hmem : ∀ (ps : List Particle) (p : Particle), p ∈ particlesUpdate ps → 1 ≤ p.life := by
    intro ps p h
    unfold particlesUpdate at h
    have hcond := (List.mem_filter.mp h).2
    simp only [Bool.not_eq_true', decide_eq_false_iff_not, not_le] at hcond
    omega
  refine ⟨hmem, particlesUpdate_iter, ?_⟩
  intro ps pos vel col L hL
  have hlife : (mkParticle pos vel col L).life = L := rfl
  constructor
  · intro n hn
    cases n with
    | zero => rfl
    | succ m =>
        rw [particlesUpdate_iter, particlesUpdate_iter]
        unfold add_particle
        rw [List.filter_append, List.map_append]
        congr 1
        have : List.filter (fun p => decide ((m : ℤ) + 1 < p.life))
            [mkParticle pos vel col L] = [mkParticle pos vel col L] := by
          rw [List.filter_cons]
          simp only [hlife]
          rw [if_pos]
          · rfl
          · simpa using by omega
        rw [this]
        rfl
  · obtain ⟨m, hm⟩ : ∃ m, Int.toNat L = m + 1 :=
      ⟨Int.toNat L - 1, by omega⟩
    rw [hm, particlesUpdate_iter, particlesUpdate_iter]
    unfold add_particle
    rw [List.filter_append]
    have : List.filter (fun p => decide ((m : ℤ) + 1 < p.life))
        [mkParticle pos vel col L] = [] := by
      rw [List.filter_cons]
      simp only [hlife]
      rw [if_neg]
      · rfl
      · simp only [decide_eq_true_eq]
        omega
    rw [this, List.append_nil]

/-- C10 witness: the removal schedule at a concrete particle of life 3. -/
theorem c10_particle_lifetimes_w :
    (0 : ℤ) < 3 ∧
    ((2 : ℤ) < 3 ∧
      particlesUpdate^[2] (add_particle [] zeroVec zeroVec GOLD 3) =
        particlesUpdate^[2] [] ++ [Particle.advanceN 2 (mkParticle zeroVec zeroVec GOLD 3)]) ∧
    particlesUpdate^[Int.toNat 3] (add_particle [] zeroVec zeroVec GOLD 3) =
      particlesUpdate^[Int.toNat 3] [] :=
  ⟨by decide,
   ⟨by decide, ((c10_particle_lifetimes.2.2 [] zeroVec zeroVec GOLD 3 (by decide)).1 2 (by decide))⟩,
   (c10_particle_lifetimes.2.2 [] zeroVec zeroVec GOLD 3 (by decide)).2⟩


set_option maxRecDepth 100000 in
unseal Rat.add Rat.mul Rat.inv Rat.sub Rat.ofScientific in
theorem c3_chunk20 : (update_game env0)^[20] Game.fresh = c3S20 := by
  decide

set_option maxRecDepth 100000 in
unseal Rat.add Rat.mul Rat.inv Rat.sub Rat.ofScientific in
theorem c3_chunk40 : (update_game env0)^[20] c3S20 = c3S40 := by
  decide

set_option maxRecDepth 100000 in
unseal Rat.add Rat.mul Rat.inv Rat.sub Rat.ofScientific in
theorem c3_chunk60 : (update_game env0)^[20] c3S40 = c3S60 := by
  decide

set_option maxRecDepth 100000 in
unseal Rat.add Rat.mul Rat.inv Rat.sub Rat.ofScientific in
theorem c3_chunk80 : (update_game env0)^[20] c3S60 = c3S80 := by
  decide

set_option maxRecDepth 100000 in
unseal Rat.add Rat.mul Rat.inv Rat.sub Rat.ofScientific in
theorem c3_chunk100 : (update_game env0)^[20] c3S80 = c3S100 := by
  decide

set_option maxRecDepth 100000 in
unseal Rat.add Rat.mul Rat.inv Rat.sub Rat.ofScientific in
theorem c3_chunk120 : (update_game env0)^[20] c3S100 = c3S120 := by
  decide

set_option maxRecDepth 100000 in
unseal Rat.add Rat.mul Rat.inv Rat.sub Rat.ofScientific in
theorem c3_chunk140 : (update_game env0)^[20] c3S120 = c3S140 := by
  decide

set_option maxRecDepth 100000 in
unseal Rat.add Rat.mul Rat.inv Rat.sub Rat.ofScientific in
theorem c3_chunk160 : (update_game env0)^[20] c3S140 = c3S160 := by
  decide

set_option maxRecDepth 100000 in
unseal Rat.add Rat.mul Rat.inv Rat.sub Rat.ofScientific in
theorem c3_chunk180 : (update_game env0)^[20] c3S160 = c3S180 := by
  decide

set_option maxRecDepth 100000 in
unseal Rat.add Rat.mul Rat.inv Rat.sub Rat.ofScientific in
theorem c3_chunk200 : (update_game env0)^[20] c3S180 = c3S200 := by
  decide

set_option maxRecDepth 100000 in
unseal Rat.add Rat.mul Rat.inv Rat.sub Rat.ofScientific in
theorem c3_chunk220 : (update_game env0)^[20] c3S200 = c3S220 := by
  decide

set_option maxRecDepth 100000 in
unseal Rat.add Rat.mul Rat.inv Rat.sub Rat.ofScientific in
theorem c3_chunk240 : (update_game env0)^[20] c3S220 = c3S240 := by
  decide

set_option maxRecDepth 100000 in
unseal Rat.add Rat.mul Rat.inv Rat.sub Rat.ofScientific in
theorem c3_chunk260 : (update_game env0)^[20] c3S240 = c3S260 := by
  decide

set_option maxRecDepth 100000 in
unseal Rat.add Rat.mul Rat.inv Rat.sub Rat.ofScientific in
theorem c3_chunk280 : (update_game env0)^[20] c3S260 = c3S280 := by
  decide

set_option maxRecDepth 100000 in
unseal Rat.add Rat.mul Rat.inv Rat.sub Rat.ofScientific in
theorem c3_chunk300 : (update_game env0)^[20] c3S280 = c3S300 := by
  decide

set_option maxRecDepth 100000 in
unseal Rat.add Rat.mul Rat.inv Rat.sub Rat.ofScientific in
theorem c3_chunk320 : (update_game env0)^[20] c3S300 = c3S320 := by
  decide

set_option maxRecDepth 100000 in
unseal Rat.add Rat.mul Rat.inv Rat.sub Rat.ofScientific in
theorem c3_chunk340 : (update_game env0)^[20] c3S320 = c3S340 := by
  decide

set_option maxRecDepth 100000 in
unseal Rat.add Rat.mul Rat.inv Rat.sub Rat.ofScientific in
theorem c3_chunk360 : (update_game env0)^[20] c3S340 = c3S360 := by
  decide

set_option maxRecDepth 100000 in
unseal Rat.add Rat.mul Rat.inv Rat.sub Rat.ofScientific in
theorem c3_chunk380 : (update_game env0)^[20] c3S360 = c3S380 := by
  decide

set_option maxRecDepth 100000 in
unseal Rat.add Rat.mul Rat.inv Rat.sub Rat.ofScientific in
theorem c3_chunk400 : (update_game env0)^[20] c3S380 = c3S400 := by
  decide

set_option maxRecDepth 100000 in
unseal Rat.add Rat.mul Rat.inv Rat.sub Rat.ofScientific in
theorem c3_chunk420 : (update_game env0)^[20] c3S400 = c3S420 := by
  decide

set_option maxRecDepth 100000 in
unseal Rat.add Rat.mul Rat.inv Rat.sub Rat.ofScientific in
theorem c3_chunk440 : (update_game env0)^[20] c3S420 = c3S440 := by
  decide

set_option maxRecDepth 100000 in
unseal Rat.add Rat.mul Rat.inv Rat.sub Rat.ofScientific in
theorem c3_chunk460 : (update_game env0)^[20] c3S440 = c3S460 := by
  decide

set_option maxRecDepth 100000 in
unseal Rat.add Rat.mul Rat.inv Rat.sub Rat.ofScientific in
theorem c3_chunk480 : (update_game env0)^[20] c3S460 = c3S480 := by
  decide

set_option maxRecDepth 100000 in
unseal Rat.add Rat.mul Rat.inv Rat.sub Rat.ofScientific in
theorem c3_chunk500 : (update_game env0)^[20] c3S480 = c3S500 := by
  decide

set_option maxRecDepth 100000 in
unseal Rat.add Rat.mul Rat.inv Rat.sub Rat.ofScientific in
theorem c3_chunk520 : (update_game env0)^[20] c3S500 = c3S520 := by
  decide

set_option maxRecDepth 100000 in
unseal Rat.add Rat.mul Rat.inv Rat.sub Rat.ofScientific in
theorem c3_chunk540 : (update_game env0)^[20] c3S520 = c3S540 := by
  decide

set_option maxRecDepth 100000 in
unseal Rat.add Rat.mul Rat.inv Rat.sub Rat.ofScientific in
theorem c3_chunk560 : (update_game env0)^[20] c3S540 = c3S560 := by
  decide

set_option maxRecDepth 100000 in
unseal Rat.add Rat.mul Rat.inv Rat.sub Rat.ofScientific in
theorem c3_chunk580 : (update_game env0)^[20] c3S560 = c3S580 := by
  decide

set_option maxRecDepth 100000 in
unseal Rat.add Rat.mul Rat.inv Rat.sub Rat.ofScientific in
theorem c3_chunk600 : (update_game env0)^[20] c3S580 = c3S600 := by
  decide

set_option maxRecDepth 100000 in
unseal Rat.add Rat.mul Rat.inv Rat.sub Rat.ofScientific in
theorem c3_chunk620 : (update_game env0)^[20] c3S600 = c3S620 := by
  decide

set_option maxRecDepth 100000 in
unseal Rat.add Rat.mul Rat.inv Rat.sub Rat.ofScientific in
theorem c3_chunk624 : (update_game env0)^[4] c3S620 = c3S624 := by
  decide

set_option maxRecDepth 100000 in
unseal Rat.add Rat.mul Rat.inv Rat.sub Rat.ofScientific in
theorem c3_step625 : update_game env0 c3S624 = c3S625 := by
  decide

set_option maxRecDepth 100000 in
unseal Rat.add Rat.mul Rat.inv Rat.sub Rat.ofScientific in
theorem c3_step626 : update_game env0 c3S625 = c3S626 := by
  decide

set_option maxRecDepth 100000 in
unseal Rat.add Rat.mul Rat.inv Rat.sub Rat.ofScientific in
theorem c3_step627 : update_game env0 c3S626 = c3S627 := by
  decide

theorem c3_t40 : (update_game env0)^[40] Game.fresh = c3S40 := by
  rw [show (40 : ℕ) = 20 + 20 from rfl, Function.iterate_add_apply, c3_chunk20]
  exact c3_chunk40

theorem c3_t60 : (update_game env0)^[60] Game.fresh = c3S60 := by
  rw [show (60 : ℕ) = 20 + 40 from rfl, Function.iterate_add_apply, c3_t40]
  exact c3_chunk60

theorem c3_t80 : (update_game env0)^[80] Game.fresh = c3S80 := by
  rw [show (80 : ℕ) = 20 + 60 from rfl, Function.iterate_add_apply, c3_t60]
  exact c3_chunk80

theorem c3_t100 : (update_game env0)^[100] Game.fresh = c3S100 := by
  rw [show (100 : ℕ) = 20 + 80 from rfl, Function.iterate_add_apply, c3_t80]
  exact c3_chunk100

theorem c3_t120 : (update_game env0)^[120] Game.fresh = c3S120 := by
  rw [show (120 : ℕ) = 20 + 100 from rfl, Function.iterate_add_apply, c3_t100]
  exact c3_chunk120

theorem c3_t140 : (update_game env0)^[140] Game.fresh = c3S140 := by
  rw [show (140 : ℕ) = 20 + 120 from rfl, Function.iterate_add_apply, c3_t120]
  exact c3_chunk140

theorem c3_t160 : (update_game env0)^[160] Game.fresh = c3S160 := by
  rw [show (160 : ℕ) = 20 + 140 from rfl, Function.iterate_add_apply, c3_t140]
  exact c3_chunk160

theorem c3_t180 : (update_game env0)^[180] Game.fresh = c3S180 := by
  rw [show (180 : ℕ) = 20 + 160 from rfl, Function.iterate_add_apply, c3_t160]
  exact c3_chunk180

theorem c3_t200 : (update_game env0)^[200] Game.fresh = c3S200 := by
  rw [show (200 : ℕ) = 20 + 180 from rfl, Function.iterate_add_apply, c3_t180]
  exact c3_chunk200

theorem c3_t220 : (update_game env0)^[220] Game.fresh = c3S220 := by
  rw [show (220 : ℕ) = 20 + 200 from rfl, Function.iterate_add_apply, c3_t200]
  exact c3_chunk220

theorem c3_t240 : (update_game env0)^[240] Game.fresh = c3S240 := by
  rw [show (240 : ℕ) = 20 + 220 from rfl, Function.iterate_add_apply, c3_t220]
  exact c3_chunk240

theorem c3_t260 : (update_game env0)^[260] Game.fresh = c3S260 := by
  rw [show (260 : ℕ) = 20 + 240 from rfl, Function.iterate_add_apply, c3_t240]
  exact c3_chunk260

theorem c3_t280 : (update_game env0)^[280] Game.fresh = c3S280 := by
  rw [show (280 : ℕ) = 20 + 260 from rfl, Function.iterate_add_apply, c3_t260]
  exact c3_chunk280

theorem c3_t300 : (update_game env0)^[300] Game.fresh = c3S300 := by
  rw [show (300 : ℕ) = 20 + 280 from rfl, Function.iterate_add_apply, c3_t280]
  exact c3_chunk300

theorem c3_t320 : (update_game env0)^[320] Game.fresh = c3S320 := by
  rw [show (320 : ℕ) = 20 + 300 from rfl, Function.iterate_add_apply, c3_t300]
  exact c3_chunk320

theorem c3_t340 : (update_game env0)^[340] Game.fresh = c3S340 := by
  rw [show (340 : ℕ) = 20 + 320 from rfl, Function.iterate_add_apply, c3_t320]
  exact c3_chunk340

theorem c3_t360 : (update_game env0)^[360] Game.fresh = c3S360 := by
  rw [show (360 : ℕ) = 20 + 340 from rfl, Function.iterate_add_apply, c3_t340]
  exact c3_chunk360

theorem c3_t380 : (update_game env0)^[380] Game.fresh = c3S380 := by
  rw [show (380 : ℕ) = 20 + 360 from rfl, Function.iterate_add_apply, c3_t360]
  exact c3_chunk380

theorem c3_t400 : (update_game env0)^[400] Game.fresh = c3S400 := by
  rw [show (400 : ℕ) = 20 + 380 from rfl, Function.iterate_add_apply, c3_t380]
  exact c3_chunk400

theorem c3_t420 : (update_game env0)^[420] Game.fresh = c3S420 := by
  rw [show (420 : ℕ) = 20 + 400 from rfl, Function.iterate_add_apply, c3_t400]
  exact c3_chunk420

theorem c3_t440 : (update_game env0)^[440] Game.fresh = c3S440 := by
  rw [show (440 : ℕ) = 20 + 420 from rfl, Function.iterate_add_apply, c3_t420]
  exact c3_chunk440

theorem c3_t460 : (update_game env0)^[460] Game.fresh = c3S460 := by
  rw [show (460 : ℕ) = 20 + 440 from rfl, Function.iterate_add_apply, c3_t440]
  exact c3_chunk460

theorem c3_t480 : (update_game env0)^[480] Game.fresh = c3S480 := by
  rw [show (480 : ℕ) = 20 + 460 from rfl, Function.iterate_add_apply, c3_t460]
  exact c3_chunk480

theorem c3_t500 : (update_game env0)^[500] Game.fresh = c3S500 := by
  rw [show (500 : ℕ) = 20 + 480 from rfl, Function.iterate_add_apply, c3_t480]
  exact c3_chunk500

theorem c3_t520 : (update_game env0)^[520] Game.fresh = c3S520 := by
  rw [show (520 : ℕ) = 20 + 500 from rfl, Function.iterate_add_apply, c3_t500]
  exact c3_chunk520

theorem c3_t540 : (update_game env0)^[540] Game.fresh = c3S540 := by
  rw [show (540 : ℕ) = 20 + 520 from rfl, Function.iterate_add_apply, c3_t520]
  exact c3_chunk540

theorem c3_t560 : (update_game env0)^[560] Game.fresh = c3S560 := by
  rw [show (560 : ℕ) = 20 + 540 from rfl, Function.iterate_add_apply, c3_t540]
  exact c3_chunk560

theorem c3_t580 : (update_game env0)^[580] Game.fresh = c3S580 := by
  rw [show (580 : ℕ) = 20 + 560 from rfl, Function.iterate_add_apply, c3_t560]
  exact c3_chunk580

theorem c3_t600 : (update_game env0)^[600] Game.fresh = c3S600 := by
  rw [show (600 : ℕ) = 20 + 580 from rfl, Function.iterate_add_apply, c3_t580]
  exact c3_chunk600

theorem c3_t620 : (update_game env0)^[620] Game.fresh = c3S620 := by
  rw [show (620 : ℕ) = 20 + 600 from rfl, Function.iterate_add_apply, c3_t600]
  exact c3_chunk620

theorem c3_t624 : (update_game env0)^[624] Game.fresh = c3S624 := by
  rw [show (624 : ℕ) = 4 + 620 from rfl, Function.iterate_add_apply, c3_t620]
  exact c3_chunk624

theorem c3_t625 : (update_game env0)^[625] Game.fresh = c3S625 := by
  rw [show (625 : ℕ) = 1 + 624 from rfl, Function.iterate_add_apply, c3_t624,
    Function.iterate_one]
  exact c3_step625

theorem c3_t626 : (update_game env0)^[626] Game.fresh = c3S626 := by
  rw [show (626 : ℕ) = 1 + 625 from rfl, Function.iterate_add_apply, c3_t625,
    Function.iterate_one]
  exact c3_step626

theorem c3_t627 : (update_game env0)^[627] Game.fresh = c3S627 := by
  rw [show (627 : ℕ) = 1 + 626 from rfl, Function.iterate_add_apply, c3_t626,
    Function.iterate_one]
  exact c3_step627

set_option maxRecDepth 10000 in
unseal Rat.add Rat.mul Rat.inv Rat.sub Rat.ofScientific in
/-- C3 counterexample: on the fresh-run tick on which distance has crossed
5000 (tick 626, distance 5009.35), the difficulty is already 3, not 2, the
speed multiplier is 1.2, not 1.1, and the forward velocity has grown by
1.0, not 0.5: the check score % 500 == 0 fired on both tick 625 and tick
626, because the score stays at 500 for two consecutive ticks. -/
theorem c3_two_increments_not_one :
    ((update_game env0)^[626] Game.fresh).distance = 500935/100 ∧
    ((update_game env0)^[626] Game.fresh).difficulty ≠ 2 ∧
    ((update_game env0)^[626] Game.fresh).speed_multiplier ≠ 11/10 ∧
    ((update_game env0)^[626] Game.fresh).player.velocity.z ≠ 17/2 := by
  rw [c3_t626]
  refine ⟨by decide, by decide, by decide, by decide⟩

set_option maxRecDepth 10000 in
unseal Rat.add Rat.mul Rat.inv Rat.sub Rat.ofScientific in
/-- C3 amended: from a fresh session, distance reaches 5000 on tick 625
(score 500, first increment: difficulty 2, multiplier 1.1, velocity 8.5);
the score is still 500 on tick 626 (distance 5009.35), so the
score % 500 == 0 check fires a second time (difficulty 3, multiplier 1.2,
velocity 9.0); from tick 627 the score is past 500 and the difficulty
stays 3: the check fires on every tick whose score is a positive multiple
of 500, not only on the first. -/
theorem c3_difficulty_crossing :
    ((update_game env0)^[624] Game.fresh).difficulty = 1 ∧
    ((update_game env0)^[624] Game.fresh).score = 499 ∧
    ((update_game env0)^[625] Game.fresh).distance = 5000 ∧
    ((update_game env0)^[625] Game.fresh).score = 500 ∧
    ((update_game env0)^[625] Game.fresh).difficulty = 2 ∧
    ((update_game env0)^[625] Game.fresh).speed_multiplier = 11/10 ∧
    ((update_game env0)^[625] Game.fresh).player.velocity.z = 17/2 ∧
    ((update_game env0)^[626] Game.fresh).score = 500 ∧
    ((update_game env0)^[626] Game.fresh).difficulty = 3 ∧
    ((update_game env0)^[626] Game.fresh).speed_multiplier = 6/5 ∧
    ((update_game env0)^[626] Game.fresh).player.velocity.z = 9 ∧
    ((update_game env0)^[627] Game.fresh).score = 502 ∧
    ((update_game env0)^[627] Game.fresh).difficulty = 3 ∧
    ((update_game env0)^[627] Game.fresh).state = GameState.PLAYING := by
  rw [c3_t624, c3_t625, c3_t626, c3_t627]
  refine ⟨by decide, by decide, by decide, by decide, by decide, by decide, by decide,
    by decide, by decide, by decide, by decide, by decide, by decide, by decide⟩

end TempleRunner
